import Mathlib

/-!
# Torch height control (grbl/thc.c, grbl/timer.c)

A shallow embedding of the plasma torch height controller:

* `plasma_init`, `plasma_start`, `plasma_stop`, `plasma_update`, `pause_on_error`
  from `grbl/thc.c`;
* the timer overflow interrupt `TIMER2_OVF_vect` with `step_z`, `set_z_dir_low`,
  `set_z_dir_high` from `grbl/timer.c`.

Conventions of the embedding.

* C `float` values are exact rationals (`ℚ`), with one exception: the countdown of the
  polling loop of `plasma_start` is rounded to `float` (IEEE 754 binary32, round to
  nearest, ties to even) after each subtraction, because the number of polls depends on
  that rounding. Infinities and NaN are outside the model.
* `uint8_t` and `uint32_t` values are natural numbers; a wrapping operation is written
  with an explicit `% 256` or `% 2 ^ 32`.
* The background code (`plasma_*`) runs on a `World`: the global `plasma`, the torch
  relay driven by `spindle_start` / `spindle_stop`, the number of reads of the arc-ok
  input made so far, and the chronological trace of calls to external collaborators.
* `millis_timer` is `volatile` and written by the interrupt; a read of it by the
  background code is an input of the operation that reads it.
* The interrupt runs on a `Machine`: the global `plasma` together with the counter, the
  Z position and the Z step / direction outputs.
-/

namespace Thc

/-! ## Data model (grbl/thc.h) -/

/-- The structure `plasma_settings_t`. The four `uint8_t` fields are naturals. -/
structure PlasmaSettings where
  thc_enabled : Bool
  arc_retries : Nat
  arc_voltage_setpoint : Nat
  arc_voltage_hysteresis : Nat
  vad_threshold : Nat
  arc_fail_timeout : ℚ
  arc_retry_delay : ℚ
  pause_at_end : ℚ
  thc_delay : ℚ
  arc_voltage_scale : ℚ
  arc_voltage_offset : ℚ

/-- The structure `plasma_state_t`. `arc_voltage` is a `float` in the source,
`thc_delay` a `uint32_t`. -/
structure PlasmaState where
  arc_voltage : ℚ
  torch_on : Bool
  arc_ok : Bool
  thc_enabled : Bool
  vad_lock : Bool
  void_lock : Bool
  thc_delay : Nat
  jog_z_up : Bool
  jog_z_down : Bool
deriving DecidableEq

/-- The feedback messages `MESSAGE_PLASMA_*` passed to `report_feedback_message`. -/
inductive Message where
  | torch_on
  | arc_ok
  | arc_retry
  | arc_failed
  | thc_enabled
deriving DecidableEq

/-- A call made by the background code to an external collaborator. -/
inductive Event where
  | spindle_start
  | spindle_stop
  | feedback (m : Message)
  | delay (seconds : ℚ)
  | arc_ok_read
  | exec_alarm_torch_arc_failed
  | execute_realtime
deriving DecidableEq

/-- The world the background code acts on. `spindle` is the torch relay, `arc_ok_reads`
counts the reads of `ARC_OK_PIN` made so far, `trace` lists the external calls in the
order they were made. -/
structure World where
  plasma : PlasmaState
  spindle : Bool
  arc_ok_reads : Nat
  trace : List Event
deriving DecidableEq

/-- The planner block returned by `plan_get_current_block`; only `programmed_rate` is
read. -/
structure PlanBlock where
  programmed_rate : ℚ

/-- What one call of `plasma_update` reads from its environment: the analog sample
`analogVal`, the counter `millis_timer`, the planner's current block (`none` for a null
pointer) and the value of `st_get_realtime_rate()`. -/
structure UpdateInput where
  analogVal : ℚ
  millis_timer : Nat
  current_block : Option PlanBlock
  realtime_rate : ℚ

/-! ## External collaborators -/

/-- Record an external call at the end of the trace. -/
def emit (e : Event) (w : World) : World :=
  { w with trace := w.trace ++ [e] }

/-- The relay is energized by `spindle_start()`. -/
def spindle_start (w : World) : World :=
  emit Event.spindle_start { w with spindle := true }

/-- The relay is de-energized by `spindle_stop()`. -/
def spindle_stop (w : World) : World :=
  emit Event.spindle_stop { w with spindle := false }

/-- The call `report_feedback_message(m)`. -/
def report_feedback_message (m : Message) (w : World) : World :=
  emit (Event.feedback m) w

/-- The call `delay_sec(seconds, DELAY_MODE_SYS_SUSPEND)`. -/
def delay_sec (seconds : ℚ) (w : World) : World :=
  emit (Event.delay seconds) w

/-- The function `pause_on_error` of thc.c:
`system_set_exec_alarm(EXEC_ALARM_PLASMA_TORCH_ARC_FAILED); protocol_execute_realtime();`. -/
def pause_on_error (w : World) : World :=
  emit Event.execute_realtime (emit Event.exec_alarm_torch_arc_failed w)

/-- The conversion `(uint32_t)ceilf(x)`. Inside the range of `uint32_t` it is the
ceiling; outside it C leaves the conversion undefined and the embedding wraps. -/
def ceil_uint32 (x : ℚ) : Nat :=
  (⌈x⌉ % (2 ^ 32 : ℤ)).toNat

/-! ## grbl/thc.c -/

/-- The function `plasma_init`: thc.c lines 21-22 (the pin configuration of lines 14-19
touches no modelled state). -/
def plasma_init (w : World) : World :=
  { w with plasma := { w.plasma with jog_z_up := false, jog_z_down := false } }

/-- One pass through the body of the inner loop of `plasma_start`, thc.c lines 43-44:
```
delay_sec(0.1f, DELAY_MODE_SYS_SUSPEND);
plasma.arc_ok = bit_isfalse(ARC_OK_PIN, ARC_OK_MASK);
```
`pin k` is the level of the masked `ARC_OK_PIN` bit at the read number `k`; the input is
active low. -/
def poll_once (pin : Nat → Bool) (w : World) : World :=
  let w1 := delay_sec (1 / 10) w
  emit Event.arc_ok_read
    { w1 with
      plasma := { w1.plasma with arc_ok := !(pin w1.arc_ok_reads) },
      arc_ok_reads := w1.arc_ok_reads + 1 }

/-- The integer nearest to `x`, a tie going to the even neighbour: the rounding rule of
IEEE 754 arithmetic. -/
def round_half_even (x : ℚ) : ℤ :=
  if x - (⌊x⌋ : ℚ) < 1 / 2 then ⌊x⌋
  else if x - (⌊x⌋ : ℚ) > 1 / 2 then ⌊x⌋ + 1
  else if ⌊x⌋ % 2 = 0 then ⌊x⌋ else ⌊x⌋ + 1

/-- The binary exponent used to represent `x` as a `float`: `⌊log₂ |x|⌋`, and `-126` for
the subnormal range (and for zero). -/
def f32_exponent (x : ℚ) : ℤ :=
  max (Int.log 2 |x|) (-126)

/-- The distance between neighbouring `float` values around `x`, counted in units of
`2⁻¹⁴⁹` (the smallest positive `float`): `2 ^ (e - 23)` is `2 ^ (e + 126)` units. -/
def f32_spacing (x : ℚ) : Nat :=
  2 ^ (f32_exponent x + 126).toNat

/-- The `float` nearest to `x`, as an integer number of units of `2⁻¹⁴⁹`: 24 significant
bits, round to nearest, ties to even. Overflow to infinity (`|x| ≥ 2¹²⁸`) is outside the
model. -/
def f32_units (x : ℚ) : ℤ :=
  round_half_even (x * 2 ^ 149 / (f32_spacing x : ℚ)) * (f32_spacing x : ℤ)

/-- The value of `x` rounded to `float` (IEEE 754 binary32). -/
def f32_round (x : ℚ) : ℚ :=
  (f32_units x : ℚ) / 2 ^ 149

/-- The statement `arc_fail_timeout -= 0.1f;` of thc.c line 45: the constant `0.1f` is
the `float` nearest to 1/10 and the difference is rounded to `float`. -/
def countdown_step (arc_fail_timeout : ℚ) : ℚ :=
  f32_round (arc_fail_timeout - f32_round (1 / 10))

/-- The inner `do ... while` of `plasma_start`, thc.c lines 41-46: the body, then
`arc_fail_timeout -= 0.1f;` and the test
`(!plasma.arc_ok) && (arc_fail_timeout >= 0.0f)`.

The countdown starts at the configured `arc_fail_timeout`, which the source holds as a
`float`; every later value is a `float` by construction.

The third condition, that the countdown has moved, is not in the source. It holds for
every countdown in `[0, 2²¹]` (`countdown_moves`), and below 0 the second condition
already fails, so up to 2²¹ s the loop is the source's. A `float` above 2²¹ is not
changed by subtracting `0.1f`; the C loop then never ends while the arc stays off, and
the embedding leaves the loop there. -/
def arc_ok_poll (pin : Nat → Bool) (arc_fail_timeout : ℚ) (w : World) : World :=
  if (poll_once pin w).plasma.arc_ok = false ∧ countdown_step arc_fail_timeout ≥ 0
      ∧ countdown_step arc_fail_timeout < arc_fail_timeout then
    arc_ok_poll pin (countdown_step arc_fail_timeout) (poll_once pin w)
  else
    poll_once pin w
termination_by ⌈arc_fail_timeout * 2 ^ 149⌉.toNat
decreasing_by
  rename_i h
  obtain ⟨_, h0, hlt⟩ := h
  have hunits : countdown_step arc_fail_timeout * 2 ^ 149
      = ((f32_units (arc_fail_timeout - f32_round (1 / 10)) : ℤ) : ℚ) := by
    unfold countdown_step f32_round
    field_simp
  have hnn : (0 : ℤ) ≤ f32_units (arc_fail_timeout - f32_round (1 / 10)) := by
    have : (0 : ℚ) ≤ countdown_step arc_fail_timeout * 2 ^ 149 :=
      mul_nonneg h0 (by positivity)
    rw [hunits] at this
    exact_mod_cast this
  have hlt' : f32_units (arc_fail_timeout - f32_round (1 / 10))
      < ⌈arc_fail_timeout * 2 ^ 149⌉ := by
    rw [Int.lt_ceil, ← hunits]
    exact mul_lt_mul_of_pos_right hlt (by positivity)
  rw [hunits, Int.ceil_intCast]
  omega

/-- One ignition attempt, thc.c lines 34-51: energize, set `torch_on`, report, then
either poll the arc-ok input (`arc_retries > 0`) or take the arc for granted. -/
def ignite (cfg : PlasmaSettings) (pin : Nat → Bool) (w : World) : World :=
  let w1 := spindle_start w
  let w2 := { w1 with plasma := { w1.plasma with torch_on := true } }
  let w3 := report_feedback_message Message.torch_on w2
  if cfg.arc_retries > 0 then arc_ok_poll pin cfg.arc_fail_timeout w3
  else { w3 with plasma := { w3.plasma with arc_ok := true } }

/-- The success branch, thc.c lines 55-56. `millis_timer` is the value the read at line
56 returns. -/
def arc_confirmed (cfg : PlasmaSettings) (millis_timer : Nat) (w : World) : World :=
  let w1 := report_feedback_message Message.arc_ok w
  { w1 with plasma := { w1.plasma with
      thc_delay := (millis_timer + ceil_uint32 (1000 * cfg.thc_delay * 8)) % 2 ^ 32 } }

/-- The two statements `plasma.torch_on = false; spindle_stop();` shared by the retry
and the failure branch, thc.c lines 61-62 and 68-69. -/
def torch_off (w : World) : World :=
  spindle_stop { w with plasma := { w.plasma with torch_on := false } }

/-- The outer `do ... while (retries)` of `plasma_start`, thc.c lines 32-74, entered
with the local `retries` (a `uint8_t`, decremented modulo 256). The loop goes round
again exactly in the retry branch, where `--retries > 0`; the other two branches leave
`retries == 0`. -/
def ignition_loop (cfg : PlasmaSettings) (pin : Nat → Bool) (millis_timer : Nat)
    (retries : Nat) (w : World) : World :=
  if (ignite cfg pin w).plasma.arc_ok = true then
    arc_confirmed cfg millis_timer (ignite cfg pin w)
  else if (retries + 255) % 256 > 0 then
    ignition_loop cfg pin millis_timer ((retries + 255) % 256)
      (delay_sec cfg.arc_retry_delay
        (report_feedback_message Message.arc_retry (torch_off (ignite cfg pin w))))
  else
    pause_on_error (report_feedback_message Message.arc_failed (torch_off (ignite cfg pin w)))
termination_by (retries + 255) % 256
decreasing_by
  rename_i h
  omega

/-- The function `plasma_start`: `uint8_t retries = settings.plasma.arc_retries;`
followed by the retry loop. -/
def plasma_start (cfg : PlasmaSettings) (pin : Nat → Bool) (millis_timer : Nat)
    (w : World) : World :=
  ignition_loop cfg pin millis_timer cfg.arc_retries w

/-- The function `plasma_stop`, thc.c lines 77-87. -/
def plasma_stop (cfg : PlasmaSettings) (w : World) : World :=
  if w.plasma.torch_on = false then w
  else
    let w1 := if cfg.pause_at_end > 0 then delay_sec cfg.pause_at_end w else w
    let w2 := spindle_stop w1
    { w2 with plasma := { w2.plasma with
        torch_on := false, arc_ok := false, thc_enabled := false,
        vad_lock := false, void_lock := false } }

/-- The local `arc_voltage` of `plasma_update`, thc.c line 94. -/
def arc_voltage_scaled (cfg : PlasmaSettings) (analogVal : ℚ) : ℚ :=
  analogVal / 1024 * cfg.arc_voltage_scale + cfg.arc_voltage_offset

/-- The value stored in `plasma.arc_voltage`, thc.c lines 95-97. The cast `(uint8_t)`
of a value in `[0, 255]` discards the fraction. -/
def arc_voltage_stored (cfg : PlasmaSettings) (analogVal : ℚ) : ℚ :=
  if arc_voltage_scaled cfg analogVal < 0 then 0
  else if arc_voltage_scaled cfg analogVal > 255 then 255
  else ((⌊arc_voltage_scaled cfg analogVal⌋ : ℤ) : ℚ)

/-- The enable step of `plasma_update`, thc.c lines 106-110. -/
def enable_step (inp : UpdateInput) (w : World) : World :=
  if w.plasma.arc_ok = true ∧ inp.millis_timer > w.plasma.thc_delay
      ∧ w.plasma.thc_enabled = false then
    report_feedback_message Message.thc_enabled
      { w with plasma := { w.plasma with thc_enabled := true } }
  else w

/-- The condition of thc.c lines 114-116 on the planner data. -/
def vad_engage (cfg : PlasmaSettings) (inp : UpdateInput) : Bool :=
  match inp.current_block with
  | none => false
  | some b => decide (inp.realtime_rate < b.programmed_rate * (cfg.vad_threshold : ℚ) / 100)

/-- The condition of thc.c lines 121-123 on the planner data. -/
def vad_release (inp : UpdateInput) : Bool :=
  match inp.current_block with
  | none => false
  | some b => decide (inp.realtime_rate > b.programmed_rate * (99 / 100))

/-- The two velocity checks of `plasma_update`, thc.c lines 113-126, in source order. -/
def vad_step (cfg : PlasmaSettings) (inp : UpdateInput) (p : PlasmaState) : PlasmaState :=
  let p1 := if p.thc_enabled = true ∧ vad_engage cfg inp = true
    then { p with vad_lock := true } else p
  if p1.thc_enabled = true ∧ vad_release inp = true
    then { p1 with vad_lock := false } else p1

/-- The range test of thc.c lines 130-131. The `uint8_t` operands are promoted to `int`
before the subtraction and the addition. -/
def in_ok_range (cfg : PlasmaSettings) (v : ℚ) : Bool :=
  decide (v > (((cfg.arc_voltage_setpoint : ℤ) - (cfg.arc_voltage_hysteresis : ℤ) : ℤ) : ℚ))
    && decide (v < (((cfg.arc_voltage_setpoint : ℤ) + (cfg.arc_voltage_hysteresis : ℤ) : ℤ) : ℚ))

/-- The jog decision of `plasma_update`, thc.c lines 129-148. -/
def jog_step (cfg : PlasmaSettings) (p : PlasmaState) : PlasmaState :=
  if p.thc_enabled = false ∨ p.vad_lock = true ∨ p.void_lock = true
      ∨ in_ok_range cfg p.arc_voltage = true then
    { p with jog_z_up := false, jog_z_down := false }
  else if p.arc_voltage > (cfg.arc_voltage_setpoint : ℚ) then
    { p with jog_z_up := false, jog_z_down := true }
  else
    { p with jog_z_up := true, jog_z_down := false }

/-- The function `plasma_update`, thc.c lines 90-149. -/
def plasma_update (cfg : PlasmaSettings) (inp : UpdateInput) (w : World) : World :=
  let w1 := { w with plasma := { w.plasma with
    arc_voltage := arc_voltage_stored cfg inp.analogVal } }
  if cfg.thc_enabled = false then
    { w1 with plasma := { w1.plasma with
        thc_enabled := false, jog_z_up := false, jog_z_down := false } }
  else
    let w2 := enable_step inp w1
    { w2 with plasma := jog_step cfg (vad_step cfg inp w2.plasma) }

/-! ## grbl/timer.c -/

/-- The state the timer interrupt acts on: the global `plasma`, the counter
`millis_timer` (32 bits), `sys_position[Z_AXIS]`, the levels of the Z direction and Z
step output bits, the number of pulses sent on the Z step output, and the timer
registers `TCNT2` and `TIFR2`. -/
structure Machine where
  plasma : PlasmaState
  millis_timer : Nat
  sys_position_z : Int
  z_direction : Bool
  z_step : Bool
  z_step_pulses : Nat
  TCNT2 : Nat
  TIFR2 : Nat
deriving DecidableEq

/-- The function `step_z`: the step bit goes high, then low. -/
def step_z (m : Machine) : Machine :=
  { m with z_step := false, z_step_pulses := m.z_step_pulses + 1 }

/-- The function `set_z_dir_low`. -/
def set_z_dir_low (m : Machine) : Machine :=
  { m with z_direction := false }

/-- The function `set_z_dir_high`. -/
def set_z_dir_high (m : Machine) : Machine :=
  { m with z_direction := true }

/-- The test `settings.dir_invert_mask & (1 << 2)`. -/
def z_dir_inverted (dir_invert_mask : Nat) : Bool :=
  decide (dir_invert_mask &&& (1 <<< 2) ≠ 0)

/-- The interrupt handler `ISR(TIMER2_OVF_vect)`, timer.c lines 35-69. -/
def TIMER2_OVF_vect (dir_invert_mask : Nat) (m : Machine) : Machine :=
  let m1 :=
    if m.plasma.jog_z_up = true then
      let m2 := if z_dir_inverted dir_invert_mask = true
        then set_z_dir_high m else set_z_dir_low m
      let m3 := step_z m2
      { m3 with sys_position_z := m3.sys_position_z + 1 }
    else if m.plasma.jog_z_down = true then
      let m2 := if z_dir_inverted dir_invert_mask = true
        then set_z_dir_low m else set_z_dir_high m
      let m3 := step_z m2
      { m3 with sys_position_z := m3.sys_position_z - 1 }
    else m
  { m1 with TCNT2 := 223, TIFR2 := 0, millis_timer := (m1.millis_timer + 1) % 2 ^ 32 }

/-! ## Calls recorded in the trace -/

/-- The number of times the external call `e` was made so far. -/
def calls (e : Event) (w : World) : Nat :=
  w.trace.count e

/-- The run of `plasma_update` over a list of inputs, oldest first. -/
def run_updates (cfg : PlasmaSettings) : List UpdateInput → World → World
  | [], w => w
  | inp :: rest, w => run_updates cfg rest (plasma_update cfg inp w)

/-- The states the background code can be in: anything `plasma_init` returns, closed
under `plasma_start`, `plasma_stop` and `plasma_update` with any configuration and any
input. -/
inductive Reachable : World → Prop where
  | init (w : World) : Reachable (plasma_init w)
  | start (cfg : PlasmaSettings) (pin : Nat → Bool) (millis_timer : Nat) (w : World) :
      Reachable w → Reachable (plasma_start cfg pin millis_timer w)
  | stop (cfg : PlasmaSettings) (w : World) : Reachable w → Reachable (plasma_stop cfg w)
  | update (cfg : PlasmaSettings) (inp : UpdateInput) (w : World) :
      Reachable w → Reachable (plasma_update cfg inp w)

/-! ## Concrete inputs -/

/-- A configuration: master enable on, three retries, setpoint 120 with hysteresis 5,
VAD threshold 80 %, 1 s arc timeout, 2 s retry delay, 2 s pause at end, 0.5 s THC delay,
and a voltage mapping that sends the raw sample to itself. -/
def demo_settings : PlasmaSettings :=
  { thc_enabled := true, arc_retries := 3, arc_voltage_setpoint := 120,
    arc_voltage_hysteresis := 5, vad_threshold := 80, arc_fail_timeout := 1,
    arc_retry_delay := 2, pause_at_end := 2, thc_delay := 1 / 2,
    arc_voltage_scale := 1024, arc_voltage_offset := 0 }

/-- The zero-initialised global `plasma`. -/
def plasma_zero : PlasmaState :=
  { arc_voltage := 0, torch_on := false, arc_ok := false, thc_enabled := false,
    vad_lock := false, void_lock := false, thc_delay := 0,
    jog_z_up := false, jog_z_down := false }

/-- The world at power-up: `plasma` zeroed, relay off, nothing called yet. -/
def world_zero : World :=
  { plasma := plasma_zero, spindle := false, arc_ok_reads := 0, trace := [] }

/-- A world in the middle of a cut: torch on, arc confirmed, THC active, relay on. -/
def world_cutting : World :=
  { plasma := { plasma_zero with torch_on := true, arc_ok := true, thc_enabled := true },
    spindle := true, arc_ok_reads := 0, trace := [] }

/-- An update input with raw sample `v` at tick `tick`, no planner block. -/
def sample_at (v : ℚ) (tick : Nat) : UpdateInput :=
  { analogVal := v, millis_timer := tick, current_block := none, realtime_rate := 0 }

/-- An arc-ok input that stays high: the arc never establishes. -/
def pin_never : Nat → Bool := fun _ => true

/-- An arc-ok input that reads asserted (low) at the read number `j` and at no other. -/
def pin_asserts_at (j : Nat) : Nat → Bool := fun k => decide (k ≠ j)

/-- The number of passes the polling loop of `plasma_start` makes when the arc-ok input
never asserts and the countdown starts at `arc_fail_timeout`: the reads of the input
that `arc_ok_poll` makes from power-up. -/
def countdown_passes (arc_fail_timeout : ℚ) : Nat :=
  (arc_ok_poll pin_never arc_fail_timeout world_zero).arc_ok_reads

/-- The interrupt-side state at power-up with the given `plasma`. -/
def machine_with (p : PlasmaState) : Machine :=
  { plasma := p, millis_timer := 0, sys_position_z := 0, z_direction := false,
    z_step := false, z_step_pulses := 0, TCNT2 := 130, TIFR2 := 0 }

/-- A world with the torch on, the arc just confirmed and the enable deadline at
`deadline`; THC is not active yet. -/
def world_arc_confirmed (deadline : Nat) : World :=
  { plasma := { plasma_zero with torch_on := true, arc_ok := true, thc_delay := deadline },
    spindle := true, arc_ok_reads := 0, trace := [] }

/-- An update input with raw sample `v` at tick `tick` while the planner runs a block
programmed at `programmed_rate` and the steppers report `realtime_rate`. -/
def moving_at (v : ℚ) (tick : Nat) (programmed_rate realtime_rate : ℚ) : UpdateInput :=
  { analogVal := v, millis_timer := tick,
    current_block := some { programmed_rate := programmed_rate },
    realtime_rate := realtime_rate }

/-- The two velocity checks of thc.c lines 113-126 taken in the opposite order: the
release test first, the engage test second. Not in the source; it is what the source is
compared with when the order of the two checks is in question. -/
def vad_step_release_first (cfg : PlasmaSettings) (inp : UpdateInput) (p : PlasmaState) :
    PlasmaState :=
  let p1 := if p.thc_enabled = true ∧ vad_release inp = true
    then { p with vad_lock := false } else p
  if p1.thc_enabled = true ∧ vad_engage cfg inp = true
    then { p1 with vad_lock := true } else p1

/-! ## Frame lemmas -/

theorem calls_emit (e e' : Event) (w : World) :
    calls e (emit e' w) = calls e w + (if e' = e then 1 else 0) := by
  by_cases h : e' = e
  · subst h
    simp [calls, emit]
  · have h' : (e' == e) = false := by simpa using h
    simp [calls, emit, h, List.count_cons, h']

theorem poll_once_plasma (pin : Nat → Bool) (w : World) :
    (poll_once pin w).plasma = { w.plasma with arc_ok := !(pin w.arc_ok_reads) } := rfl

theorem poll_once_spindle (pin : Nat → Bool) (w : World) :
    (poll_once pin w).spindle = w.spindle := rfl

/-- The polling loop writes `plasma.arc_ok` and nothing else of `plasma`. -/
theorem arc_ok_poll_plasma (pin : Nat → Bool) (t : ℚ) (w : World) :
    (arc_ok_poll pin t w).plasma
      = { w.plasma with arc_ok := (arc_ok_poll pin t w).plasma.arc_ok } := by
  induction t, w using arc_ok_poll.induct pin with
  | case1 t w h ih =>
    rw [arc_ok_poll, if_pos h]
    rw [ih]
    simp [poll_once_plasma]
  | case2 t w h =>
    rw [arc_ok_poll, if_neg h]
    simp [poll_once_plasma]

/-- The polling loop leaves the relay alone. -/
theorem arc_ok_poll_spindle (pin : Nat → Bool) (t : ℚ) (w : World) :
    (arc_ok_poll pin t w).spindle = w.spindle := by
  induction t, w using arc_ok_poll.induct pin with
  | case1 t w h ih =>
    rw [arc_ok_poll, if_pos h, ih, poll_once_spindle]
  | case2 t w h =>
    rw [arc_ok_poll, if_neg h, poll_once_spindle]

theorem ignite_plasma (cfg : PlasmaSettings) (pin : Nat → Bool) (w : World) :
    (ignite cfg pin w).plasma
      = { w.plasma with torch_on := true, arc_ok := (ignite cfg pin w).plasma.arc_ok } := by
  unfold ignite
  by_cases h : cfg.arc_retries > 0
  · simp only [if_pos h]
    rw [arc_ok_poll_plasma]
    rfl
  · simp only [if_neg h]
    rfl

theorem ignite_spindle (cfg : PlasmaSettings) (pin : Nat → Bool) (w : World) :
    (ignite cfg pin w).spindle = true := by
  unfold ignite
  by_cases h : cfg.arc_retries > 0
  · simp only [if_pos h]
    rw [arc_ok_poll_spindle]
    rfl
  · simp only [if_neg h]
    rfl

theorem torch_off_plasma (w : World) :
    (torch_off w).plasma = { w.plasma with torch_on := false } := rfl

theorem torch_off_spindle (w : World) : (torch_off w).spindle = false := rfl

/-- What `plasma_start` may change in `plasma`: `torch_on`, `arc_ok` and `thc_delay`. -/
theorem ignition_loop_plasma (cfg : PlasmaSettings) (pin : Nat → Bool) (millis_timer : Nat)
    (retries : Nat) (w : World) :
    (ignition_loop cfg pin millis_timer retries w).plasma
      = { w.plasma with
          torch_on := (ignition_loop cfg pin millis_timer retries w).plasma.torch_on,
          arc_ok := (ignition_loop cfg pin millis_timer retries w).plasma.arc_ok,
          thc_delay := (ignition_loop cfg pin millis_timer retries w).plasma.thc_delay } := by
  induction retries, w using ignition_loop.induct cfg pin millis_timer with
  | case1 retries w h =>
    rw [ignition_loop, if_pos h]
    simp only [arc_confirmed, report_feedback_message, emit]
    rw [ignite_plasma]
  | case2 retries w h hr ih =>
    rw [ignition_loop, if_neg h, if_pos hr]
    rw [ih]
    simp only [delay_sec, report_feedback_message, emit, torch_off_plasma]
    rw [ignite_plasma]
  | case3 retries w h hr =>
    rw [ignition_loop, if_neg h, if_neg hr]
    simp only [pause_on_error, report_feedback_message, emit, torch_off_plasma]
    rw [ignite_plasma]

/-- When `plasma_start` returns, `torch_on`, `arc_ok` and the relay agree. -/
theorem ignition_loop_outcome (cfg : PlasmaSettings) (pin : Nat → Bool) (millis_timer : Nat)
    (retries : Nat) (w : World) :
    (ignition_loop cfg pin millis_timer retries w).plasma.torch_on
        = (ignition_loop cfg pin millis_timer retries w).spindle
      ∧ (ignition_loop cfg pin millis_timer retries w).plasma.torch_on
        = (ignition_loop cfg pin millis_timer retries w).plasma.arc_ok := by
  induction retries, w using ignition_loop.induct cfg pin millis_timer with
  | case1 retries w h =>
    rw [ignition_loop, if_pos h]
    have hp := ignite_plasma cfg pin w
    have hs := ignite_spindle cfg pin w
    simp only [arc_confirmed, report_feedback_message, emit]
    rw [hp] at h ⊢
    simp only [hs] at h ⊢
    simp [h]
  | case2 retries w h hr ih =>
    rw [ignition_loop, if_neg h, if_pos hr]
    exact ih
  | case3 retries w h hr =>
    rw [ignition_loop, if_neg h, if_neg hr]
    have hp := ignite_plasma cfg pin w
    simp only [pause_on_error, report_feedback_message, emit, torch_off_plasma,
      torch_off_spindle]
    rw [hp] at h ⊢
    simpa using h

theorem calls_report (e : Event) (m : Message) (w : World) :
    calls e (report_feedback_message m w)
      = calls e w + (if Event.feedback m = e then 1 else 0) :=
  calls_emit e _ w

theorem plasma_start_plasma (cfg : PlasmaSettings) (pin : Nat → Bool) (millis_timer : Nat)
    (w : World) :
    (plasma_start cfg pin millis_timer w).plasma
      = { w.plasma with
          torch_on := (plasma_start cfg pin millis_timer w).plasma.torch_on,
          arc_ok := (plasma_start cfg pin millis_timer w).plasma.arc_ok,
          thc_delay := (plasma_start cfg pin millis_timer w).plasma.thc_delay } :=
  ignition_loop_plasma cfg pin millis_timer cfg.arc_retries w

theorem plasma_start_jog (cfg : PlasmaSettings) (pin : Nat → Bool) (millis_timer : Nat)
    (w : World) :
    (plasma_start cfg pin millis_timer w).plasma.jog_z_up = w.plasma.jog_z_up
      ∧ (plasma_start cfg pin millis_timer w).plasma.jog_z_down = w.plasma.jog_z_down := by
  rw [plasma_start_plasma]
  exact ⟨rfl, rfl⟩

theorem plasma_start_thc_enabled (cfg : PlasmaSettings) (pin : Nat → Bool)
    (millis_timer : Nat) (w : World) :
    (plasma_start cfg pin millis_timer w).plasma.thc_enabled = w.plasma.thc_enabled := by
  rw [plasma_start_plasma]

theorem plasma_stop_off (cfg : PlasmaSettings) (w : World) (h : w.plasma.torch_on = false) :
    plasma_stop cfg w = w := by
  unfold plasma_stop
  rw [if_pos h]

theorem plasma_stop_on (cfg : PlasmaSettings) (w : World) (h : w.plasma.torch_on = true) :
    plasma_stop cfg w
      = { spindle := false
          arc_ok_reads := w.arc_ok_reads
          trace := w.trace ++
            (if cfg.pause_at_end > 0 then [Event.delay cfg.pause_at_end, Event.spindle_stop]
             else [Event.spindle_stop])
          plasma := { w.plasma with
            torch_on := false, arc_ok := false, thc_enabled := false,
            vad_lock := false, void_lock := false } } := by
  unfold plasma_stop
  have h' : ¬ w.plasma.torch_on = false := by simp [h]
  rw [if_neg h']
  by_cases hp : cfg.pause_at_end > 0
  · simp [hp, spindle_stop, delay_sec, emit]
  · simp [hp, spindle_stop, emit]

theorem plasma_stop_jog (cfg : PlasmaSettings) (w : World) :
    (plasma_stop cfg w).plasma.jog_z_up = w.plasma.jog_z_up
      ∧ (plasma_stop cfg w).plasma.jog_z_down = w.plasma.jog_z_down := by
  cases h : w.plasma.torch_on
  · rw [plasma_stop_off cfg w h]
    exact ⟨rfl, rfl⟩
  · rw [plasma_stop_on cfg w h]
    exact ⟨rfl, rfl⟩

theorem plasma_stop_tracks (cfg : PlasmaSettings) (w : World)
    (h : w.plasma.torch_on = w.spindle) :
    (plasma_stop cfg w).plasma.torch_on = (plasma_stop cfg w).spindle := by
  cases ht : w.plasma.torch_on
  · rw [plasma_stop_off cfg w ht, ← h, ht]
  · rw [plasma_stop_on cfg w ht]

theorem plasma_stop_thc_enabled (cfg : PlasmaSettings) (w : World)
    (h : w.plasma.thc_enabled = false) :
    (plasma_stop cfg w).plasma.thc_enabled = false := by
  cases ht : w.plasma.torch_on
  · rw [plasma_stop_off cfg w ht, h]
  · rw [plasma_stop_on cfg w ht]

theorem enable_step_plasma (inp : UpdateInput) (w : World) :
    (enable_step inp w).plasma
      = { w.plasma with thc_enabled := (enable_step inp w).plasma.thc_enabled } := by
  unfold enable_step
  split <;> rfl

theorem enable_step_spindle (inp : UpdateInput) (w : World) :
    (enable_step inp w).spindle = w.spindle := by
  unfold enable_step
  split <;> rfl

theorem enable_step_thc_enabled (inp : UpdateInput) (w : World) :
    (enable_step inp w).plasma.thc_enabled
      = (w.plasma.thc_enabled
          || (w.plasma.arc_ok && decide (inp.millis_timer > w.plasma.thc_delay))) := by
  unfold enable_step
  split
  · rename_i h
    simp [report_feedback_message, emit, h.1, h.2.1, h.2.2]
  · rename_i h
    cases hen : w.plasma.thc_enabled
    · cases hok : w.plasma.arc_ok
      · simp
      · simp only [hen, hok, true_and, and_true, not_true_eq_false] at h
        simp [h]
    · simp

theorem enable_step_calls (inp : UpdateInput) (w : World) (e : Event) :
    calls e (enable_step inp w)
      = calls e w
        + (if w.plasma.arc_ok = true ∧ inp.millis_timer > w.plasma.thc_delay
              ∧ w.plasma.thc_enabled = false ∧ Event.feedback Message.thc_enabled = e
           then 1 else 0) := by
  unfold enable_step
  split
  · rename_i h
    have hc := calls_report e Message.thc_enabled w
    simp only [calls, report_feedback_message, emit] at hc ⊢
    rw [hc]
    simp [h.1, h.2.1, h.2.2]
  · rename_i h
    have : ¬ (w.plasma.arc_ok = true ∧ inp.millis_timer > w.plasma.thc_delay
        ∧ w.plasma.thc_enabled = false ∧ Event.feedback Message.thc_enabled = e) := by
      intro hh
      exact h ⟨hh.1, hh.2.1, hh.2.2.1⟩
    rw [if_neg this]
    rfl

theorem vad_step_frame (cfg : PlasmaSettings) (inp : UpdateInput) (p : PlasmaState) :
    vad_step cfg inp p = { p with vad_lock := (vad_step cfg inp p).vad_lock } := by
  unfold vad_step
  dsimp only
  split_ifs <;> rfl

theorem jog_step_frame (cfg : PlasmaSettings) (p : PlasmaState) :
    jog_step cfg p
      = { p with jog_z_up := (jog_step cfg p).jog_z_up,
                 jog_z_down := (jog_step cfg p).jog_z_down } := by
  unfold jog_step
  split
  · rfl
  · split <;> rfl

theorem jog_step_exclusive (cfg : PlasmaSettings) (p : PlasmaState) :
    ¬ ((jog_step cfg p).jog_z_up = true ∧ (jog_step cfg p).jog_z_down = true) := by
  unfold jog_step
  split
  · simp
  · split <;> simp

/-- With the master enable off, `plasma_update` rewrites `arc_voltage`, clears
`thc_enabled` and the jog flags, and does nothing else. -/
theorem plasma_update_master_off (cfg : PlasmaSettings) (inp : UpdateInput) (w : World)
    (h : cfg.thc_enabled = false) :
    plasma_update cfg inp w
      = { w with plasma := { w.plasma with
            arc_voltage := arc_voltage_stored cfg inp.analogVal,
            thc_enabled := false, jog_z_up := false, jog_z_down := false } } := by
  unfold plasma_update
  rw [if_pos h]

/-- With the master enable on, `plasma_update` is the enable step followed by the
velocity checks and the jog decision. -/
theorem plasma_update_master_on (cfg : PlasmaSettings) (inp : UpdateInput) (w : World)
    (h : cfg.thc_enabled = true) :
    plasma_update cfg inp w
      = { enable_step inp { w with plasma := { w.plasma with
              arc_voltage := arc_voltage_stored cfg inp.analogVal } } with
          plasma := jog_step cfg (vad_step cfg inp
            (enable_step inp { w with plasma := { w.plasma with
              arc_voltage := arc_voltage_stored cfg inp.analogVal } }).plasma) } := by
  unfold plasma_update
  have h' : ¬ cfg.thc_enabled = false := by simp [h]
  rw [if_neg h']

theorem plasma_update_exclusive (cfg : PlasmaSettings) (inp : UpdateInput) (w : World) :
    ¬ ((plasma_update cfg inp w).plasma.jog_z_up = true
        ∧ (plasma_update cfg inp w).plasma.jog_z_down = true) := by
  cases h : cfg.thc_enabled
  · rw [plasma_update_master_off cfg inp w h]
    simp
  · rw [plasma_update_master_on cfg inp w h]
    exact jog_step_exclusive cfg _

/-- The fields of `plasma` that `plasma_update` never writes, and the relay. -/
theorem plasma_update_frame (cfg : PlasmaSettings) (inp : UpdateInput) (w : World) :
    (plasma_update cfg inp w).plasma.torch_on = w.plasma.torch_on
      ∧ (plasma_update cfg inp w).plasma.arc_ok = w.plasma.arc_ok
      ∧ (plasma_update cfg inp w).plasma.thc_delay = w.plasma.thc_delay
      ∧ (plasma_update cfg inp w).plasma.void_lock = w.plasma.void_lock
      ∧ (plasma_update cfg inp w).spindle = w.spindle
      ∧ (plasma_update cfg inp w).plasma.arc_voltage
          = arc_voltage_stored cfg inp.analogVal := by
  cases h : cfg.thc_enabled
  · rw [plasma_update_master_off cfg inp w h]
    simp
  · rw [plasma_update_master_on cfg inp w h]
    simp only
    rw [jog_step_frame, vad_step_frame, enable_step_plasma, enable_step_spindle]
    simp

/-- With the master enable on, the runtime `thc_enabled` after `plasma_update` is the
one the enable step leaves. -/
theorem plasma_update_thc_enabled (cfg : PlasmaSettings) (inp : UpdateInput) (w : World)
    (h : cfg.thc_enabled = true) :
    (plasma_update cfg inp w).plasma.thc_enabled
      = (w.plasma.thc_enabled
          || (w.plasma.arc_ok && decide (inp.millis_timer > w.plasma.thc_delay))) := by
  rw [plasma_update_master_on cfg inp w h]
  simp only
  rw [jog_step_frame, vad_step_frame, enable_step_thc_enabled]

/-- The calls `plasma_update` makes: at most the one "THC enabled" report. -/
theorem plasma_update_calls (cfg : PlasmaSettings) (inp : UpdateInput) (w : World)
    (e : Event) :
    calls e (plasma_update cfg inp w)
      = calls e w
        + (if cfg.thc_enabled = true ∧ w.plasma.arc_ok = true
              ∧ inp.millis_timer > w.plasma.thc_delay
              ∧ w.plasma.thc_enabled = false ∧ Event.feedback Message.thc_enabled = e
           then 1 else 0) := by
  cases h : cfg.thc_enabled
  · rw [plasma_update_master_off cfg inp w h]
    simp [calls]
  · rw [plasma_update_master_on cfg inp w h]
    have hc := enable_step_calls inp { w with plasma := { w.plasma with
              arc_voltage := arc_voltage_stored cfg inp.analogVal } } e
    simp only [calls] at hc ⊢
    rw [hc]
    simp

theorem timer_plasma (dir_invert_mask : Nat) (m : Machine) :
    (TIMER2_OVF_vect dir_invert_mask m).plasma = m.plasma := by
  unfold TIMER2_OVF_vect
  simp only
  split
  · split <;> rfl
  · split
    · split <;> rfl
    · rfl

/-- The jog decision on a state with THC active and no lock. -/
theorem jog_step_decision (cfg : PlasmaSettings) (p : PlasmaState)
    (hen : p.thc_enabled = true) (hvad : p.vad_lock = false) (hvoid : p.void_lock = false) :
    (p.arc_voltage > (cfg.arc_voltage_setpoint : ℚ) + (cfg.arc_voltage_hysteresis : ℚ) →
        (jog_step cfg p).jog_z_down = true ∧ (jog_step cfg p).jog_z_up = false)
      ∧ (p.arc_voltage < (cfg.arc_voltage_setpoint : ℚ) - (cfg.arc_voltage_hysteresis : ℚ) →
        (jog_step cfg p).jog_z_up = true ∧ (jog_step cfg p).jog_z_down = false)
      ∧ ((cfg.arc_voltage_setpoint : ℚ) - (cfg.arc_voltage_hysteresis : ℚ) < p.arc_voltage
          ∧ p.arc_voltage < (cfg.arc_voltage_setpoint : ℚ) + (cfg.arc_voltage_hysteresis : ℚ) →
        (jog_step cfg p).jog_z_up = false ∧ (jog_step cfg p).jog_z_down = false) := by
  have hy : (0 : ℚ) ≤ (cfg.arc_voltage_hysteresis : ℚ) := Nat.cast_nonneg _
  have hrange : in_ok_range cfg p.arc_voltage = true ↔
      ((cfg.arc_voltage_setpoint : ℚ) - (cfg.arc_voltage_hysteresis : ℚ) < p.arc_voltage
        ∧ p.arc_voltage < (cfg.arc_voltage_setpoint : ℚ) + (cfg.arc_voltage_hysteresis : ℚ)) := by
    unfold in_ok_range
    simp only [Bool.and_eq_true, decide_eq_true_eq, gt_iff_lt]
    push_cast
    rfl
  refine ⟨?_, ?_, ?_⟩
  · intro hv
    have hno : ¬ in_ok_range cfg p.arc_voltage = true := by
      rw [hrange]; intro h; linarith [h.2]
    have hgt : p.arc_voltage > (cfg.arc_voltage_setpoint : ℚ) := by linarith
    unfold jog_step
    simp [hen, hvad, hvoid, hno, hgt]
  · intro hv
    have hno : ¬ in_ok_range cfg p.arc_voltage = true := by
      rw [hrange]; intro h; linarith [h.1]
    have hle : ¬ p.arc_voltage > (cfg.arc_voltage_setpoint : ℚ) := by
      intro h; linarith
    unfold jog_step
    simp only [hen, hvad, hvoid, hno, hle]
    simp
  · intro hv
    have hin : in_ok_range cfg p.arc_voltage = true := hrange.mpr hv
    unfold jog_step
    simp [hin]

/-- In the cutting state with no planner block, an update at tick 1 keeps THC active and
both locks clear. -/
theorem demo_cutting_gates (v : ℚ) :
    (plasma_update demo_settings (sample_at v 1) world_cutting).plasma.thc_enabled = true
      ∧ (plasma_update demo_settings (sample_at v 1) world_cutting).plasma.vad_lock = false
      ∧ (plasma_update demo_settings (sample_at v 1) world_cutting).plasma.void_lock = false
      ∧ (plasma_update demo_settings (sample_at v 1) world_cutting).plasma.arc_voltage
          = arc_voltage_stored demo_settings v := by
  have hm : demo_settings.thc_enabled = true := rfl
  refine ⟨?_, ?_, (plasma_update_frame _ _ _).2.2.2.1, (plasma_update_frame _ _ _).2.2.2.2.2⟩
  · rw [plasma_update_thc_enabled _ _ _ hm]
    rfl
  · rw [plasma_update_master_on _ _ _ hm]
    simp only
    rw [jog_step_frame]
    simp [vad_step, vad_engage, vad_release, sample_at, enable_step, world_cutting,
      plasma_zero]

/-- The demo mapping stores an integral sample in `[0, 255]` unchanged. -/
theorem demo_stored (n : Nat) (hn : n ≤ 255) :
    arc_voltage_stored demo_settings (n : ℚ) = (n : ℚ) := by
  have hs : arc_voltage_scaled demo_settings (n : ℚ) = (n : ℚ) := by
    simp [arc_voltage_scaled, demo_settings]
  unfold arc_voltage_stored
  rw [hs]
  have h0 : ¬ ((n : ℚ) < 0) := by
    have : (0 : ℚ) ≤ (n : ℚ) := Nat.cast_nonneg n
    linarith
  have h1 : ¬ ((n : ℚ) > 255) := by
    have : (n : ℚ) ≤ 255 := by exact_mod_cast hn
    linarith
  rw [if_neg h0, if_neg h1]
  simp

/-! ## The binary32 countdown -/

theorem round_half_even_eq (y : ℚ) (n : ℤ) (h1 : (n : ℚ) - 1 / 2 < y)
    (h2 : y < (n : ℚ) + 1 / 2) : round_half_even y = n := by
  have hfl : ((⌊y⌋ : ℤ) : ℚ) ≤ y := Int.floor_le y
  have hfl' : y < ((⌊y⌋ : ℤ) : ℚ) + 1 := Int.lt_floor_add_one y
  have hle : ⌊y⌋ ≤ n := by
    have : ((⌊y⌋ : ℤ) : ℚ) < (n : ℚ) + 1 := by linarith
    have : ⌊y⌋ < n + 1 := by exact_mod_cast this
    omega
  have hge : n ≤ ⌊y⌋ + 1 := by
    have : (n : ℚ) < ((⌊y⌋ : ℤ) : ℚ) + 2 := by linarith
    have : n < ⌊y⌋ + 2 := by exact_mod_cast this
    omega
  unfold round_half_even
  by_cases ha : y - (⌊y⌋ : ℚ) < 1 / 2
  · rw [if_pos ha]
    have : (n : ℚ) < ((⌊y⌋ : ℤ) : ℚ) + 1 := by linarith
    have : n < ⌊y⌋ + 1 := by exact_mod_cast this
    omega
  · rw [if_neg ha]
    by_cases hb : y - (⌊y⌋ : ℚ) > 1 / 2
    · rw [if_pos hb]
      have : ((⌊y⌋ : ℤ) : ℚ) < (n : ℚ) := by linarith
      have : ⌊y⌋ < n := by exact_mod_cast this
      omega
    · exfalso
      have hy : y = ((⌊y⌋ : ℤ) : ℚ) + 1 / 2 := by
        have h3 : y - (⌊y⌋ : ℚ) ≤ 1 / 2 := not_lt.mp hb
        have h4 : 1 / 2 ≤ y - (⌊y⌋ : ℚ) := not_lt.mp ha
        linarith
      have h5 : (n : ℚ) < ((⌊y⌋ : ℤ) : ℚ) + 1 := by linarith
      have h6 : ((⌊y⌋ : ℤ) : ℚ) < (n : ℚ) := by linarith
      have h7 : n < ⌊y⌋ + 1 := by exact_mod_cast h5
      have h8 : ⌊y⌋ < n := by exact_mod_cast h6
      omega

/-- The exponent of a value whose size lies in the binade of `2 ^ (k - 126)`. -/
theorem f32_exponent_eq (x : ℚ) (k : Nat) (hlo : (2 : ℚ) ^ (k + 23) ≤ |x| * 2 ^ 149)
    (hhi : |x| * 2 ^ 149 < (2 : ℚ) ^ (k + 24)) : f32_exponent x = (k : ℤ) - 126 := by
  have h149 : (0 : ℚ) < 2 ^ 149 := by positivity
  have hpos : 0 < |x| := by
    have h : (0 : ℚ) < |x| * 2 ^ 149 := lt_of_lt_of_le (by positivity) hlo
    exact (mul_pos_iff_of_pos_right h149).mp h
  have hz : ∀ j : Nat, (2 : ℚ) ^ ((k : ℤ) - 126 + (j : ℤ)) * 2 ^ 149 = 2 ^ (k + 23 + j) := by
    intro j
    have he : (k : ℤ) - 126 + (j : ℤ) + ((149 : ℕ) : ℤ) = ((k + 23 + j : ℕ) : ℤ) := by
      push_cast
      ring
    rw [← zpow_natCast (2 : ℚ) 149, ← zpow_add₀ (two_ne_zero), he, zpow_natCast]
  have hlow : ((2 : ℕ) : ℚ) ^ ((k : ℤ) - 126) ≤ |x| := by
    have h := hz 0
    simp only [Nat.cast_zero, add_zero] at h
    have : (2 : ℚ) ^ ((k : ℤ) - 126) * 2 ^ 149 ≤ |x| * 2 ^ 149 := by rw [h]; exact hlo
    exact_mod_cast le_of_mul_le_mul_right this h149
  have hupp : |x| < ((2 : ℕ) : ℚ) ^ ((k : ℤ) - 126 + 1) := by
    have h := hz 1
    have : |x| * 2 ^ 149 < (2 : ℚ) ^ ((k : ℤ) - 126 + 1) * 2 ^ 149 := by
      rw [show ((k : ℤ) - 126 + 1) = ((k : ℤ) - 126 + ((1 : ℕ) : ℤ)) by norm_num, h]
      exact hhi
    exact_mod_cast lt_of_mul_lt_mul_right this h149.le
  have h1 : (k : ℤ) - 126 ≤ Int.log 2 |x| :=
    (Int.zpow_le_iff_le_log (by norm_num) hpos).mp hlow
  have h2 : Int.log 2 |x| < (k : ℤ) - 126 + 1 :=
    (Int.lt_zpow_iff_log_lt (by norm_num) hpos).mp hupp
  unfold f32_exponent
  have : Int.log 2 |x| = (k : ℤ) - 126 := by omega
  rw [this]
  exact max_eq_left (by omega)

/-- How to evaluate `f32_round`: `x`, of either sign, lies in the binade where the
spacing is `2 ^ k` units and `n` spacings is the nearest multiple. -/
theorem f32_round_eq (x : ℚ) (k : Nat) (n : ℤ)
    (hlo : (2 : ℚ) ^ (k + 23) ≤ |x| * 2 ^ 149) (hhi : |x| * 2 ^ 149 < (2 : ℚ) ^ (k + 24))
    (h1 : (n : ℚ) - 1 / 2 < x * 2 ^ 149 / 2 ^ k)
    (h2 : x * 2 ^ 149 / 2 ^ k < (n : ℚ) + 1 / 2) :
    f32_round x = (n : ℚ) * 2 ^ k / 2 ^ 149 := by
  have hsp : f32_spacing x = 2 ^ k := by
    unfold f32_spacing
    rw [f32_exponent_eq x k hlo hhi]
    congr 1
    omega
  unfold f32_round f32_units
  rw [hsp]
  push_cast
  rw [round_half_even_eq _ n h1 h2]

theorem round_half_even_tie (y : ℚ) (n : ℤ) (heven : n % 2 = 0)
    (hy : y = (n : ℚ) - 1 / 2 ∨ y = (n : ℚ) + 1 / 2) : round_half_even y = n := by
  unfold round_half_even
  rcases hy with hy | hy
  · have hfl : ⌊y⌋ = n - 1 := by
      rw [Int.floor_eq_iff, hy]
      push_cast
      constructor <;> linarith
    have hd : y - (⌊y⌋ : ℚ) = 1 / 2 := by
      rw [hfl, hy]
      push_cast
      ring
    rw [hd, if_neg (lt_irrefl _), if_neg (lt_irrefl _), hfl, if_neg (by omega)]
    omega
  · have hfl : ⌊y⌋ = n := by
      rw [Int.floor_eq_iff, hy]
      constructor <;> linarith
    have hd : y - (⌊y⌋ : ℚ) = 1 / 2 := by
      rw [hfl, hy]
      ring
    rw [hd, if_neg (lt_irrefl _), if_neg (lt_irrefl _), hfl, if_pos heven]

/-- How to evaluate `f32_round` at a tie: `x` lies half-way between two neighbouring
`float` values and `n` spacings is the even one. -/
theorem f32_round_tie (x : ℚ) (k : Nat) (n : ℤ)
    (hlo : (2 : ℚ) ^ (k + 23) ≤ |x| * 2 ^ 149) (hhi : |x| * 2 ^ 149 < (2 : ℚ) ^ (k + 24))
    (heven : n % 2 = 0)
    (hy : x * 2 ^ 149 / 2 ^ k = (n : ℚ) - 1 / 2 ∨ x * 2 ^ 149 / 2 ^ k = (n : ℚ) + 1 / 2) :
    f32_round x = (n : ℚ) * 2 ^ k / 2 ^ 149 := by
  have hsp : f32_spacing x = 2 ^ k := by
    unfold f32_spacing
    rw [f32_exponent_eq x k hlo hhi]
    congr 1
    omega
  unfold f32_round f32_units
  rw [hsp]
  push_cast
  rw [round_half_even_tie _ n heven hy]

/-- The constant `0.1f`. -/
theorem f32_tenth : f32_round (1 / 10) = 13421773 / 134217728 := by
  rw [f32_round_eq (1 / 10) 122 13421773 (by norm_num [abs_of_pos]) (by norm_num [abs_of_pos])
    (by norm_num) (by norm_num)]
  norm_num

theorem countdown_one_1 : countdown_step (1) = 7549747 / 8388608 := by
  unfold countdown_step
  rw [f32_tenth, f32_round_eq _ 125 15099494 (by norm_num [abs_of_pos, abs_of_neg])
    (by norm_num [abs_of_pos, abs_of_neg]) (by norm_num) (by norm_num)]
  norm_num

theorem countdown_one_2 : countdown_step (7549747 / 8388608) = 3355443 / 4194304 := by
  unfold countdown_step
  rw [f32_tenth, f32_round_eq _ 125 13421772 (by norm_num [abs_of_pos, abs_of_neg])
    (by norm_num [abs_of_pos, abs_of_neg]) (by norm_num) (by norm_num)]
  norm_num

theorem countdown_one_3 : countdown_step (3355443 / 4194304) = 5872025 / 8388608 := by
  unfold countdown_step
  rw [f32_tenth, f32_round_eq _ 125 11744050 (by norm_num [abs_of_pos, abs_of_neg])
    (by norm_num [abs_of_pos, abs_of_neg]) (by norm_num) (by norm_num)]
  norm_num

theorem countdown_one_4 : countdown_step (5872025 / 8388608) = 1258291 / 2097152 := by
  unfold countdown_step
  rw [f32_tenth, f32_round_eq _ 125 10066328 (by norm_num [abs_of_pos, abs_of_neg])
    (by norm_num [abs_of_pos, abs_of_neg]) (by norm_num) (by norm_num)]
  norm_num

theorem countdown_one_5 : countdown_step (1258291 / 2097152) = 16777213 / 33554432 := by
  unfold countdown_step
  rw [f32_tenth, f32_round_eq _ 124 16777213 (by norm_num [abs_of_pos, abs_of_neg])
    (by norm_num [abs_of_pos, abs_of_neg]) (by norm_num) (by norm_num)]
  norm_num

theorem countdown_one_6 : countdown_step (16777213 / 33554432) = 6710885 / 16777216 := by
  unfold countdown_step
  rw [f32_tenth, f32_round_eq _ 124 13421770 (by norm_num [abs_of_pos, abs_of_neg])
    (by norm_num [abs_of_pos, abs_of_neg]) (by norm_num) (by norm_num)]
  norm_num

theorem countdown_one_7 : countdown_step (6710885 / 16777216) = 10066327 / 33554432 := by
  unfold countdown_step
  rw [f32_tenth, f32_round_eq _ 124 10066327 (by norm_num [abs_of_pos, abs_of_neg])
    (by norm_num [abs_of_pos, abs_of_neg]) (by norm_num) (by norm_num)]
  norm_num

theorem countdown_one_8 : countdown_step (10066327 / 33554432) = 1677721 / 8388608 := by
  unfold countdown_step
  rw [f32_tenth, f32_round_tie _ 123 13421768 (by norm_num [abs_of_pos, abs_of_neg])
    (by norm_num [abs_of_pos, abs_of_neg]) (by decide) (Or.inl (by norm_num))]
  norm_num

theorem countdown_one_9 : countdown_step (1677721 / 8388608) = 13421763 / 134217728 := by
  unfold countdown_step
  rw [f32_tenth, f32_round_eq _ 122 13421763 (by norm_num [abs_of_pos, abs_of_neg])
    (by norm_num [abs_of_pos, abs_of_neg]) (by norm_num) (by norm_num)]
  norm_num

theorem countdown_one_10 : countdown_step (13421763 / 134217728) = (-5 / 67108864) := by
  unfold countdown_step
  rw [f32_tenth, f32_round_eq _ 102 (-10485760) (by norm_num [abs_of_pos, abs_of_neg])
    (by norm_num [abs_of_pos, abs_of_neg]) (by norm_num) (by norm_num)]
  norm_num

theorem poll_once_reads (pin : Nat → Bool) (w : World) :
    (poll_once pin w).arc_ok_reads = w.arc_ok_reads + 1 := rfl

/-- Under an arc-ok input that never asserts, the number of reads the polling loop adds
depends on the countdown alone, not on the world it starts in. -/
theorem arc_ok_poll_reads_shift (p1 p2 : Nat → Bool) (h1 : ∀ k, p1 k = true)
    (h2 : ∀ k, p2 k = true) (t : ℚ) (w1 : World) :
    ∀ w2 : World, (arc_ok_poll p1 t w1).arc_ok_reads + w2.arc_ok_reads
      = (arc_ok_poll p2 t w2).arc_ok_reads + w1.arc_ok_reads := by
  induction t, w1 using arc_ok_poll.induct p1 with
  | case1 t w1 h ih =>
    intro w2
    have hf2 : (poll_once p2 w2).plasma.arc_ok = false := by
      rw [poll_once_plasma]
      simp [h2]
    rw [arc_ok_poll.eq_1 p1 t w1, if_pos h, arc_ok_poll.eq_1 p2 t w2,
      if_pos ⟨hf2, h.2.1, h.2.2⟩]
    have := ih (poll_once p2 w2)
    rw [poll_once_reads, poll_once_reads] at this
    omega
  | case2 t w1 h =>
    intro w2
    have hf1 : (poll_once p1 w1).plasma.arc_ok = false := by
      rw [poll_once_plasma]
      simp [h1]
    have hn : ¬ ((poll_once p2 w2).plasma.arc_ok = false ∧ countdown_step t ≥ 0
        ∧ countdown_step t < t) := fun hc => h ⟨hf1, hc.2.1, hc.2.2⟩
    rw [arc_ok_poll.eq_1 p1 t w1, if_neg h, arc_ok_poll.eq_1 p2 t w2, if_neg hn,
      poll_once_reads, poll_once_reads]
    omega

/-- Under an arc-ok input that never asserts, the polling loop started with countdown
`t` reads the input `countdown_passes t` times. -/
theorem arc_ok_poll_reads_never (pin : Nat → Bool) (hpin : ∀ k, pin k = true) (t : ℚ)
    (w : World) :
    (arc_ok_poll pin t w).arc_ok_reads = w.arc_ok_reads + countdown_passes t := by
  have h := arc_ok_poll_reads_shift pin pin_never hpin (fun _ => rfl) t w world_zero
  unfold countdown_passes
  have h0 : world_zero.arc_ok_reads = 0 := rfl
  omega

/-- The passes of the polling loop, one countdown step at a time: another pass follows
as long as the decremented countdown is still `>= 0` (and has moved). -/
theorem countdown_passes_unfold (t : ℚ) :
    countdown_passes t
      = if countdown_step t ≥ 0 ∧ countdown_step t < t
          then countdown_passes (countdown_step t) + 1 else 1 := by
  have hf : (poll_once pin_never world_zero).plasma.arc_ok = false := rfl
  by_cases h : countdown_step t ≥ 0 ∧ countdown_step t < t
  · rw [if_pos h]
    unfold countdown_passes
    rw [arc_ok_poll.eq_1 pin_never t world_zero, if_pos ⟨hf, h.1, h.2⟩,
      arc_ok_poll_reads_never pin_never (fun _ => rfl)]
    unfold countdown_passes
    rw [poll_once_reads]
    have h0 : world_zero.arc_ok_reads = 0 := rfl
    omega
  · rw [if_neg h]
    unfold countdown_passes
    rw [arc_ok_poll.eq_1 pin_never t world_zero, if_neg (fun hc => h ⟨hc.2.1, hc.2.2⟩),
      poll_once_reads]
    rfl

theorem countdown_passes_pos (t : ℚ) : 1 ≤ countdown_passes t := by
  rw [countdown_passes_unfold]
  split <;> omega

/-- One more pass: the decremented countdown `t'` is still `>= 0`. -/
theorem countdown_passes_next (t t' : ℚ) (h : countdown_step t = t') (h0 : 0 ≤ t')
    (hlt : t' < t) : countdown_passes t = countdown_passes t' + 1 := by
  rw [countdown_passes_unfold t, h, if_pos ⟨h0, hlt⟩]

/-- The last pass: the decremented countdown `t'` is negative. -/
theorem countdown_passes_last (t t' : ℚ) (h : countdown_step t = t') (hneg : t' < 0) :
    countdown_passes t = 1 := by
  rw [countdown_passes_unfold t, h, if_neg (fun hc => absurd hc.1 (not_le.mpr hneg))]

/-- With `arc_fail_timeout = 1.0 s` a failing attempt makes 10 passes: the tenth
subtraction of `0.1f` leaves the `float` countdown at `-5 × 2⁻²⁶`. -/
theorem countdown_passes_one : countdown_passes 1 = 10 := by
  rw [countdown_passes_next _ _ countdown_one_1 (by norm_num) (by norm_num),
    countdown_passes_next _ _ countdown_one_2 (by norm_num) (by norm_num),
    countdown_passes_next _ _ countdown_one_3 (by norm_num) (by norm_num),
    countdown_passes_next _ _ countdown_one_4 (by norm_num) (by norm_num),
    countdown_passes_next _ _ countdown_one_5 (by norm_num) (by norm_num),
    countdown_passes_next _ _ countdown_one_6 (by norm_num) (by norm_num),
    countdown_passes_next _ _ countdown_one_7 (by norm_num) (by norm_num),
    countdown_passes_next _ _ countdown_one_8 (by norm_num) (by norm_num),
    countdown_passes_next _ _ countdown_one_9 (by norm_num) (by norm_num),
    countdown_passes_last _ _ countdown_one_10 (by norm_num)]

theorem ignition_loop_success (cfg : PlasmaSettings) (pin : Nat → Bool) (millis_timer : Nat)
    (retries : Nat) (w : World) (h : (ignite cfg pin w).plasma.arc_ok = true) :
    ignition_loop cfg pin millis_timer retries w
      = arc_confirmed cfg millis_timer (ignite cfg pin w) := by
  rw [ignition_loop, if_pos h]

/-- Once THC is active and the master enable is on, further updates keep it active and
report nothing. -/
theorem run_updates_enabled (cfg : PlasmaSettings) (hm : cfg.thc_enabled = true) :
    ∀ (ins : List UpdateInput) (w : World), w.plasma.thc_enabled = true →
      (run_updates cfg ins w).plasma.thc_enabled = true
        ∧ calls (Event.feedback Message.thc_enabled) (run_updates cfg ins w)
            = calls (Event.feedback Message.thc_enabled) w := by
  intro ins
  induction ins with
  | nil => intro w h; exact ⟨h, rfl⟩
  | cons inp rest ih =>
    intro w h
    have h1 : (plasma_update cfg inp w).plasma.thc_enabled = true := by
      rw [plasma_update_thc_enabled cfg inp w hm, h]
      rfl
    have hc : calls (Event.feedback Message.thc_enabled) (plasma_update cfg inp w)
        = calls (Event.feedback Message.thc_enabled) w := by
      rw [plasma_update_calls]
      simp [h]
    obtain ⟨ih1, ih2⟩ := ih (plasma_update cfg inp w) h1
    exact ⟨ih1, by rw [← hc]; exact ih2⟩

/-- One update on a state with the arc confirmed and THC not yet active. -/
theorem plasma_update_pending (cfg : PlasmaSettings) (hm : cfg.thc_enabled = true)
    (inp : UpdateInput) (w : World) (hok : w.plasma.arc_ok = true)
    (hen : w.plasma.thc_enabled = false) :
    (plasma_update cfg inp w).plasma.thc_enabled
        = decide (w.plasma.thc_delay < inp.millis_timer)
      ∧ calls (Event.feedback Message.thc_enabled) (plasma_update cfg inp w)
        = calls (Event.feedback Message.thc_enabled) w
            + (if w.plasma.thc_delay < inp.millis_timer then 1 else 0) := by
  constructor
  · rw [plasma_update_thc_enabled cfg inp w hm, hok, hen]
    simp
  · rw [plasma_update_calls]
    simp [hm, hok, hen]

/-- The enable transition over a run of updates at non-decreasing ticks, from a state
with the arc confirmed, THC not yet active and deadline `d`. -/
theorem run_updates_pending (cfg : PlasmaSettings) (hm : cfg.thc_enabled = true) (d : Nat) :
    ∀ (ins : List UpdateInput) (w : World), w.plasma.arc_ok = true →
      w.plasma.thc_delay = d → w.plasma.thc_enabled = false →
      List.Pairwise (fun a b => a ≤ b) (ins.map UpdateInput.millis_timer) →
      (∀ (k : Nat) (hk : k < ins.length),
          (run_updates cfg (ins.take (k + 1)) w).plasma.thc_enabled
            = decide (d < (ins.get ⟨k, hk⟩).millis_timer))
        ∧ calls (Event.feedback Message.thc_enabled) (run_updates cfg ins w)
          = calls (Event.feedback Message.thc_enabled) w
              + (if ∃ inp ∈ ins, d < inp.millis_timer then 1 else 0) := by
  intro ins
  induction ins with
  | nil =>
    intro w _ _ _ _
    refine ⟨fun k hk => absurd hk (Nat.not_lt_zero k), ?_⟩
    simp [run_updates]
  | cons inp rest ih =>
    intro w hok hd hen hs
    obtain ⟨hu1, hu2⟩ := plasma_update_pending cfg hm inp w hok hen
    rw [hd] at hu1 hu2
    obtain ⟨_, hfok, hfd, _, _, _⟩ := plasma_update_frame cfg inp w
    rw [List.map_cons, List.pairwise_cons] at hs
    obtain ⟨hhead, htail⟩ := hs
    by_cases hlt : d < inp.millis_timer
    · -- this update enables THC; every later tick is past the deadline as well
      have hen1 : (plasma_update cfg inp w).plasma.thc_enabled = true := by
        rw [hu1]; simpa using hlt
      constructor
      · intro k hk
        cases k with
        | zero =>
          simp only [List.take_succ_cons, List.take_zero, run_updates]
          rw [hen1]
          simpa using hlt
        | succ k =>
          simp only [List.take_succ_cons, run_updates]
          rw [(run_updates_enabled cfg hm _ _ hen1).1]
          have hk' : k < rest.length := by simpa using hk
          have hmem : (rest.get ⟨k, hk'⟩).millis_timer
              ∈ rest.map UpdateInput.millis_timer :=
            List.mem_map_of_mem _ (List.get_mem _ _ _)
          have := hhead _ hmem
          have hlt' : d < (rest.get ⟨k, hk'⟩).millis_timer := by omega
          simpa using hlt'
      · simp only [run_updates]
        rw [(run_updates_enabled cfg hm rest _ hen1).2, hu2, if_pos hlt]
        have hex : ∃ i ∈ inp :: rest, d < i.millis_timer := ⟨inp, by simp, hlt⟩
        rw [if_pos hex]
    · -- still pending after this update
      have hen1 : (plasma_update cfg inp w).plasma.thc_enabled = false := by
        rw [hu1]; simpa using hlt
      obtain ⟨ih1, ih2⟩ := ih (plasma_update cfg inp w) (by rw [hfok, hok])
        (by rw [hfd, hd]) hen1 htail
      constructor
      · intro k hk
        cases k with
        | zero =>
          simp only [List.take_succ_cons, List.take_zero, run_updates]
          rw [hen1]
          simpa using hlt
        | succ k =>
          simp only [List.take_succ_cons, run_updates]
          have hk' : k < rest.length := by simpa using hk
          exact ih1 k hk'
      · simp only [run_updates]
        rw [ih2, hu2, if_neg hlt]
        have hiff : (∃ i ∈ inp :: rest, d < i.millis_timer)
            ↔ (∃ i ∈ rest, d < i.millis_timer) := by
          constructor
          · rintro ⟨i, hi, hdi⟩
            rcases List.mem_cons.mp hi with h | h
            · subst h; exact absurd hdi hlt
            · exact ⟨i, h, hdi⟩
          · rintro ⟨i, hi, hdi⟩
            exact ⟨i, List.mem_cons_of_mem _ hi, hdi⟩
        simp only [hiff]
        omega

/-! ## The claims -/

/-- C1. `jog_z_up` and `jog_z_down` are never both true: `plasma_init` clears both;
after `plasma_update`, from any prior state and with any configuration and input, at
most one is set; `plasma_start` and `plasma_stop` leave both as they were; hence no
state reachable from `plasma_init` by these three operations has both set. -/
theorem jog_flags_never_both :
    (∀ w : World, (plasma_init w).plasma.jog_z_up = false
        ∧ (plasma_init w).plasma.jog_z_down = false)
    ∧ (∀ (cfg : PlasmaSettings) (inp : UpdateInput) (w : World),
        ¬ ((plasma_update cfg inp w).plasma.jog_z_up = true
            ∧ (plasma_update cfg inp w).plasma.jog_z_down = true))
    ∧ (∀ (cfg : PlasmaSettings) (pin : Nat → Bool) (millis_timer : Nat) (w : World),
        (plasma_start cfg pin millis_timer w).plasma.jog_z_up = w.plasma.jog_z_up
          ∧ (plasma_start cfg pin millis_timer w).plasma.jog_z_down = w.plasma.jog_z_down)
    ∧ (∀ (cfg : PlasmaSettings) (w : World),
        (plasma_stop cfg w).plasma.jog_z_up = w.plasma.jog_z_up
          ∧ (plasma_stop cfg w).plasma.jog_z_down = w.plasma.jog_z_down)
    ∧ (∀ w : World, Reachable w →
        ¬ (w.plasma.jog_z_up = true ∧ w.plasma.jog_z_down = true)) := by
  refine ⟨fun w => ⟨rfl, rfl⟩, plasma_update_exclusive, plasma_start_jog, plasma_stop_jog, ?_⟩
  intro w hw
  induction hw with
  | init w => simp [plasma_init]
  | start cfg pin millis_timer w _ ih =>
    obtain ⟨hu, hd⟩ := plasma_start_jog cfg pin millis_timer w
    rw [hu, hd]
    exact ih
  | stop cfg w _ ih =>
    obtain ⟨hu, hd⟩ := plasma_stop_jog cfg w
    rw [hu, hd]
    exact ih
  | update cfg inp w _ _ => exact plasma_update_exclusive cfg inp w

/-- C1 at concrete inputs: an update on a state that has both flags set, and a state
reached by init, start (arc never establishes), update, stop. -/
theorem jog_flags_never_both_witness :
    ¬ ((plasma_update demo_settings (sample_at 126 1)
          { world_cutting with plasma :=
              { world_cutting.plasma with jog_z_up := true, jog_z_down := true } }).plasma.jog_z_up
          = true
        ∧ (plasma_update demo_settings (sample_at 126 1)
          { world_cutting with plasma :=
              { world_cutting.plasma with jog_z_up := true, jog_z_down := true } }).plasma.jog_z_down
          = true)
    ∧ ¬ ((plasma_stop demo_settings (plasma_update demo_settings (sample_at 126 1)
            (plasma_start demo_settings pin_never 1000 (plasma_init world_zero)))).plasma.jog_z_up
          = true
        ∧ (plasma_stop demo_settings (plasma_update demo_settings (sample_at 126 1)
            (plasma_start demo_settings pin_never 1000 (plasma_init world_zero)))).plasma.jog_z_down
          = true) :=
  ⟨jog_flags_never_both.2.1 _ _ _,
   jog_flags_never_both.2.2.2.2 _
    (Reachable.stop _ _ (Reachable.update _ _ _ (Reachable.start _ _ _ _
      (Reachable.init world_zero))))⟩

/-- C2. If the master `thc_enabled` of the configuration is false then, for every prior
state and input, after `plasma_update` the runtime `thc_enabled`, `jog_z_up` and
`jog_z_down` are false, `vad_lock`, `void_lock`, `arc_ok`, `torch_on` and `thc_delay`
are unchanged, the relay and the trace are unchanged (no notification), and
`arc_voltage` is the recomputed clamped value. -/
theorem master_disabled_forces_idle (cfg : PlasmaSettings) (inp : UpdateInput) (w : World)
    (h : cfg.thc_enabled = false) :
    (plasma_update cfg inp w).plasma.thc_enabled = false
      ∧ (plasma_update cfg inp w).plasma.jog_z_up = false
      ∧ (plasma_update cfg inp w).plasma.jog_z_down = false
      ∧ (plasma_update cfg inp w).plasma.vad_lock = w.plasma.vad_lock
      ∧ (plasma_update cfg inp w).plasma.void_lock = w.plasma.void_lock
      ∧ (plasma_update cfg inp w).plasma.arc_ok = w.plasma.arc_ok
      ∧ (plasma_update cfg inp w).plasma.torch_on = w.plasma.torch_on
      ∧ (plasma_update cfg inp w).plasma.thc_delay = w.plasma.thc_delay
      ∧ (plasma_update cfg inp w).trace = w.trace
      ∧ (plasma_update cfg inp w).spindle = w.spindle
      ∧ (plasma_update cfg inp w).plasma.arc_voltage
          = arc_voltage_stored cfg inp.analogVal := by
  rw [plasma_update_master_off cfg inp w h]
  simp

/-- C2 at a concrete input: master enable off, prior state cutting with THC active and
both jog flags set. -/
theorem master_disabled_forces_idle_witness :
    (plasma_update { demo_settings with thc_enabled := false } (sample_at 126 1)
        { world_cutting with plasma :=
            { world_cutting.plasma with jog_z_up := true, jog_z_down := true } }).plasma.thc_enabled
        = false
      ∧ (plasma_update { demo_settings with thc_enabled := false } (sample_at 126 1)
        { world_cutting with plasma :=
            { world_cutting.plasma with jog_z_up := true, jog_z_down := true } }).plasma.jog_z_up
        = false
      ∧ (plasma_update { demo_settings with thc_enabled := false } (sample_at 126 1)
        { world_cutting with plasma :=
            { world_cutting.plasma with jog_z_up := true, jog_z_down := true } }).plasma.jog_z_down
        = false :=
  have h := master_disabled_forces_idle { demo_settings with thc_enabled := false }
    (sample_at 126 1)
    { world_cutting with plasma :=
        { world_cutting.plasma with jog_z_up := true, jog_z_down := true } } rfl
  ⟨h.1, h.2.1, h.2.2.1⟩

/-- C4. `torch_on` tracks the relay: from any state, `plasma_start` returns with
`torch_on` equal to the relay state; from a state where `torch_on` equals the relay
state, `plasma_stop` and `plasma_update` return with the two equal again. -/
theorem torch_on_tracks_relay (cfg : PlasmaSettings) (pin : Nat → Bool) (millis_timer : Nat)
    (inp : UpdateInput) (w : World) (h : w.plasma.torch_on = w.spindle) :
    (plasma_start cfg pin millis_timer w).plasma.torch_on
        = (plasma_start cfg pin millis_timer w).spindle
      ∧ (plasma_stop cfg w).plasma.torch_on = (plasma_stop cfg w).spindle
      ∧ (plasma_update cfg inp w).plasma.torch_on = (plasma_update cfg inp w).spindle := by
  refine ⟨(ignition_loop_outcome cfg pin millis_timer cfg.arc_retries w).1,
    plasma_stop_tracks cfg w h, ?_⟩
  obtain ⟨ht, _, _, _, hs, _⟩ := plasma_update_frame cfg inp w
  rw [ht, hs, h]

/-- C4 at a concrete input: the cutting state (torch on, relay on). -/
theorem torch_on_tracks_relay_witness :
    world_cutting.plasma.torch_on = world_cutting.spindle
      ∧ (plasma_start demo_settings pin_never 1000 world_cutting).plasma.torch_on
        = (plasma_start demo_settings pin_never 1000 world_cutting).spindle
      ∧ (plasma_stop demo_settings world_cutting).plasma.torch_on
        = (plasma_stop demo_settings world_cutting).spindle
      ∧ (plasma_update demo_settings (sample_at 126 1) world_cutting).plasma.torch_on
        = (plasma_update demo_settings (sample_at 126 1) world_cutting).spindle :=
  ⟨rfl, torch_on_tracks_relay demo_settings pin_never 1000 (sample_at 126 1) world_cutting rfl⟩

/-- C5. From a state with `torch_on` true, `plasma_stop` appends to the trace exactly
the delay of `pause_at_end` seconds followed by one `spindle_stop` when
`pause_at_end > 0`, and exactly one `spindle_stop` with no delay otherwise (in
particular when `pause_at_end = 0`); it returns with the relay off and `torch_on`,
`arc_ok`, `thc_enabled`, `vad_lock`, `void_lock` all false. -/
theorem stop_when_torch_on (cfg : PlasmaSettings) (w : World)
    (h : w.plasma.torch_on = true) :
    (plasma_stop cfg w).trace
        = w.trace ++
          (if cfg.pause_at_end > 0 then [Event.delay cfg.pause_at_end, Event.spindle_stop]
           else [Event.spindle_stop])
      ∧ (plasma_stop cfg w).spindle = false
      ∧ (plasma_stop cfg w).plasma.torch_on = false
      ∧ (plasma_stop cfg w).plasma.arc_ok = false
      ∧ (plasma_stop cfg w).plasma.thc_enabled = false
      ∧ (plasma_stop cfg w).plasma.vad_lock = false
      ∧ (plasma_stop cfg w).plasma.void_lock = false := by
  rw [plasma_stop_on cfg w h]
  exact ⟨rfl, rfl, rfl, rfl, rfl, rfl, rfl⟩

/-- C5 at concrete inputs: `pause_at_end = 2` gives the delay and then the stop;
`pause_at_end = 0` gives the stop alone. -/
theorem stop_when_torch_on_witness :
    (plasma_stop demo_settings world_cutting).trace
        = [Event.delay 2, Event.spindle_stop]
      ∧ (plasma_stop { demo_settings with pause_at_end := 0 } world_cutting).trace
        = [Event.spindle_stop]
      ∧ (plasma_stop demo_settings world_cutting).spindle = false
      ∧ (plasma_stop demo_settings world_cutting).plasma.torch_on = false := by
  have h2 := stop_when_torch_on demo_settings world_cutting rfl
  have h0 := stop_when_torch_on { demo_settings with pause_at_end := 0 } world_cutting rfl
  refine ⟨?_, ?_, h2.2.1, h2.2.2.1⟩
  · rw [h2.1]
    simp [demo_settings, world_cutting]
  · rw [h0.1]
    simp [world_cutting]

/-- C6. From a state with `torch_on` false, `plasma_stop` returns the state it was
given, for every configuration: no relay call, no delay, no field changed. -/
theorem stop_when_torch_off (cfg : PlasmaSettings) (w : World)
    (h : w.plasma.torch_on = false) :
    plasma_stop cfg w = w :=
  plasma_stop_off cfg w h

/-- C6 at a concrete input: power-up state with a pending up jog, `pause_at_end = 2`. -/
theorem stop_when_torch_off_witness :
    plasma_stop demo_settings
        { world_zero with plasma := { plasma_zero with jog_z_up := true, vad_lock := true } }
      = { world_zero with plasma := { plasma_zero with jog_z_up := true, vad_lock := true } } :=
  stop_when_torch_off demo_settings _ rfl

/-- C7 as stated fails at the deadline tick itself: with `T = 1000`, the arc confirmed,
deadline `T + 500 = 1500` and THC off, a single update made at tick 1500 (which is
"tick `T + 500` or later") returns with `thc_enabled` false. -/
theorem enable_not_at_deadline_tick :
    demo_settings.thc_enabled = true
      ∧ (world_arc_confirmed 1500).plasma.arc_ok = true
      ∧ (world_arc_confirmed 1500).plasma.thc_delay = 1000 + 500
      ∧ (world_arc_confirmed 1500).plasma.thc_enabled = false
      ∧ (sample_at 126 1500).millis_timer ≥ 1000 + 500
      ∧ (run_updates demo_settings [sample_at 126 1500]
          (world_arc_confirmed 1500)).plasma.thc_enabled = false := by
  refine ⟨rfl, rfl, rfl, rfl, by decide, ?_⟩
  simp only [run_updates]
  rw [plasma_update_thc_enabled _ _ _ rfl]
  simp [world_arc_confirmed, plasma_zero, sample_at]

/-- C7, as amended. Enable timing: with the master enable on, `arc_ok` true, the
deadline `thc_delay = T + 500` and `thc_enabled` initially false, for every sequence of
`plasma_update` calls at non-decreasing ticks, `thc_enabled` is false after every
update made at a tick up to and including `T + 500` and true after every update made at
a tick strictly past `T + 500`; the "THC enabled" report is made exactly once over the
whole sequence when some update occurs past `T + 500`, and never otherwise. -/
theorem enable_timing (cfg : PlasmaSettings) (T : Nat) (w : World) (ins : List UpdateInput)
    (hm : cfg.thc_enabled = true) (hok : w.plasma.arc_ok = true)
    (hd : w.plasma.thc_delay = T + 500) (hen : w.plasma.thc_enabled = false)
    (hs : List.Pairwise (fun a b => a ≤ b) (ins.map UpdateInput.millis_timer)) :
    (∀ (k : Nat) (hk : k < ins.length),
        ((ins.get ⟨k, hk⟩).millis_timer ≤ T + 500 →
          (run_updates cfg (ins.take (k + 1)) w).plasma.thc_enabled = false)
        ∧ (T + 500 < (ins.get ⟨k, hk⟩).millis_timer →
          (run_updates cfg (ins.take (k + 1)) w).plasma.thc_enabled = true))
      ∧ ((∃ inp ∈ ins, T + 500 < inp.millis_timer) →
          calls (Event.feedback Message.thc_enabled) (run_updates cfg ins w)
            = calls (Event.feedback Message.thc_enabled) w + 1)
      ∧ ((¬ ∃ inp ∈ ins, T + 500 < inp.millis_timer) →
          calls (Event.feedback Message.thc_enabled) (run_updates cfg ins w)
            = calls (Event.feedback Message.thc_enabled) w) := by
  obtain ⟨h1, h2⟩ := run_updates_pending cfg hm (T + 500) ins w hok hd hen hs
  refine ⟨?_, ?_, ?_⟩
  · intro k hk
    constructor
    · intro hle
      rw [h1 k hk]
      simpa using hle
    · intro hlt
      rw [h1 k hk]
      simpa using hlt
  · intro hex
    rw [h2, if_pos hex]
  · intro hex
    rw [h2, if_neg hex]
    rfl

/-- C7 (amended) at `T = 1000`: updates at ticks 1400, 1500, 1501, 1600. THC is still
off after the update at tick 1500, on after the update at tick 1501, and the report is
made once. -/
theorem enable_timing_witness :
    (run_updates demo_settings
        [sample_at 126 1400, sample_at 126 1500] (world_arc_confirmed 1500)).plasma.thc_enabled
        = false
      ∧ (run_updates demo_settings
        [sample_at 126 1400, sample_at 126 1500, sample_at 126 1501]
        (world_arc_confirmed 1500)).plasma.thc_enabled = true
      ∧ calls (Event.feedback Message.thc_enabled)
          (run_updates demo_settings
            [sample_at 126 1400, sample_at 126 1500, sample_at 126 1501, sample_at 126 1600]
            (world_arc_confirmed 1500)) = 1 := by
  have h := enable_timing demo_settings 1000 (world_arc_confirmed 1500)
    [sample_at 126 1400, sample_at 126 1500, sample_at 126 1501, sample_at 126 1600]
    rfl rfl rfl rfl (by simp [sample_at])
  refine ⟨(h.1 1 (by decide)).1 (by decide), (h.1 2 (by decide)).2 (by decide), ?_⟩
  exact h.2.1 ⟨sample_at 126 1501, by simp, by decide⟩

/-- C8. `thc_enabled` becomes true only in `plasma_update`, and only under `arc_ok`
with the counter strictly past `thc_delay`: from a state with `thc_enabled` false, if
`plasma_update` returns with `thc_enabled` true then `arc_ok` was true and
`millis_timer > thc_delay` at that call; `plasma_init`, `plasma_start`, `plasma_stop`
and the timer interrupt return with `thc_enabled` still false. -/
theorem thc_enabled_rises_only_in_update (cfg : PlasmaSettings) (pin : Nat → Bool)
    (millis_timer : Nat) (inp : UpdateInput) (dir_invert_mask : Nat) (w : World)
    (m : Machine) (hw : w.plasma.thc_enabled = false) (hm : m.plasma.thc_enabled = false) :
    ((plasma_update cfg inp w).plasma.thc_enabled = true →
        w.plasma.arc_ok = true ∧ inp.millis_timer > w.plasma.thc_delay)
      ∧ (plasma_init w).plasma.thc_enabled = false
      ∧ (plasma_start cfg pin millis_timer w).plasma.thc_enabled = false
      ∧ (plasma_stop cfg w).plasma.thc_enabled = false
      ∧ (TIMER2_OVF_vect dir_invert_mask m).plasma.thc_enabled = false := by
  refine ⟨?_, hw, ?_, plasma_stop_thc_enabled cfg w hw, ?_⟩
  · intro h
    cases hc : cfg.thc_enabled
    · rw [plasma_update_master_off cfg inp w hc] at h
      simp at h
    · rw [plasma_update_thc_enabled cfg inp w hc, hw] at h
      simpa using h
  · rw [plasma_start_thc_enabled, hw]
  · rw [timer_plasma, hm]

/-- C8 at a concrete input: arc confirmed with deadline 1500, THC off. The update at
tick 1501 turns THC on, and the theorem returns `arc_ok` and `1501 > 1500`; the timer
interrupt on a state with THC off leaves it off. -/
theorem thc_enabled_rises_only_in_update_witness :
    ((world_arc_confirmed 1500).plasma.arc_ok = true
        ∧ (sample_at 126 1501).millis_timer > (world_arc_confirmed 1500).plasma.thc_delay)
      ∧ (plasma_start demo_settings pin_never 1000
          (world_arc_confirmed 1500)).plasma.thc_enabled = false
      ∧ (TIMER2_OVF_vect 0 (machine_with plasma_zero)).plasma.thc_enabled = false := by
  have h := thc_enabled_rises_only_in_update demo_settings pin_never 1000
    (sample_at 126 1501) 0 (world_arc_confirmed 1500) (machine_with plasma_zero) rfl rfl
  refine ⟨h.1 ?_, h.2.2.1, h.2.2.2.2⟩
  rw [plasma_update_thc_enabled _ _ _ rfl]
  simp [world_arc_confirmed, plasma_zero, sample_at]

/-- C10. Bang-bang decision: with the master enable on, and `thc_enabled` true and
`vad_lock`, `void_lock` false at the jog decision (their values when `plasma_update`
returns), for the clamped voltage `v` stored by the call and setpoint / hysteresis
arithmetic without wraparound: `v > setpoint + hysteresis` gives `jog_z_down` true and
`jog_z_up` false; `v < setpoint - hysteresis` gives `jog_z_up` true and `jog_z_down`
false; `setpoint - hysteresis < v < setpoint + hysteresis` gives both false. -/
theorem bang_bang_decision (cfg : PlasmaSettings) (inp : UpdateInput) (w : World)
    (hm : cfg.thc_enabled = true)
    (hen : (plasma_update cfg inp w).plasma.thc_enabled = true)
    (hvad : (plasma_update cfg inp w).plasma.vad_lock = false)
    (hvoid : (plasma_update cfg inp w).plasma.void_lock = false) :
    ((plasma_update cfg inp w).plasma.arc_voltage
          > (cfg.arc_voltage_setpoint : ℚ) + (cfg.arc_voltage_hysteresis : ℚ) →
        (plasma_update cfg inp w).plasma.jog_z_down = true
          ∧ (plasma_update cfg inp w).plasma.jog_z_up = false)
      ∧ ((plasma_update cfg inp w).plasma.arc_voltage
          < (cfg.arc_voltage_setpoint : ℚ) - (cfg.arc_voltage_hysteresis : ℚ) →
        (plasma_update cfg inp w).plasma.jog_z_up = true
          ∧ (plasma_update cfg inp w).plasma.jog_z_down = false)
      ∧ ((cfg.arc_voltage_setpoint : ℚ) - (cfg.arc_voltage_hysteresis : ℚ)
            < (plasma_update cfg inp w).plasma.arc_voltage
          ∧ (plasma_update cfg inp w).plasma.arc_voltage
            < (cfg.arc_voltage_setpoint : ℚ) + (cfg.arc_voltage_hysteresis : ℚ) →
        (plasma_update cfg inp w).plasma.jog_z_up = false
          ∧ (plasma_update cfg inp w).plasma.jog_z_down = false) := by
  rw [plasma_update_master_on cfg inp w hm] at hen hvad hvoid ⊢
  simp only at hen hvad hvoid ⊢
  rw [jog_step_frame] at hen hvad hvoid
  simp only at hen hvad hvoid
  have h := jog_step_decision cfg _ hen hvad hvoid
  rw [jog_step_frame cfg] at h ⊢
  exact h

/-- C10 at setpoint 120, hysteresis 5: voltage 126 jogs down, 114 jogs up, 122 holds. -/
theorem bang_bang_decision_witness :
    ((plasma_update demo_settings (sample_at 126 1) world_cutting).plasma.jog_z_down = true
        ∧ (plasma_update demo_settings (sample_at 126 1) world_cutting).plasma.jog_z_up = false)
      ∧ ((plasma_update demo_settings (sample_at 114 1) world_cutting).plasma.jog_z_up = true
        ∧ (plasma_update demo_settings (sample_at 114 1) world_cutting).plasma.jog_z_down
            = false)
      ∧ ((plasma_update demo_settings (sample_at 122 1) world_cutting).plasma.jog_z_up = false
        ∧ (plasma_update demo_settings (sample_at 122 1) world_cutting).plasma.jog_z_down
            = false) := by
  have s126 : arc_voltage_stored demo_settings 126 = 126 := by
    simpa using demo_stored 126 (by decide)
  have s114 : arc_voltage_stored demo_settings 114 = 114 := by
    simpa using demo_stored 114 (by decide)
  have s122 : arc_voltage_stored demo_settings 122 = 122 := by
    simpa using demo_stored 122 (by decide)
  refine ⟨?_, ?_, ?_⟩
  · refine (bang_bang_decision demo_settings (sample_at 126 1) world_cutting rfl
      (demo_cutting_gates 126).1 (demo_cutting_gates 126).2.1 (demo_cutting_gates 126).2.2.1).1 ?_
    rw [(demo_cutting_gates 126).2.2.2, s126]
    norm_num [demo_settings]
  · refine (bang_bang_decision demo_settings (sample_at 114 1) world_cutting rfl
      (demo_cutting_gates 114).1 (demo_cutting_gates 114).2.1
      (demo_cutting_gates 114).2.2.1).2.1 ?_
    rw [(demo_cutting_gates 114).2.2.2, s114]
    norm_num [demo_settings]
  · refine (bang_bang_decision demo_settings (sample_at 122 1) world_cutting rfl
      (demo_cutting_gates 122).1 (demo_cutting_gates 122).2.1
      (demo_cutting_gates 122).2.2.1).2.2 ?_
    rw [(demo_cutting_gates 122).2.2.2, s122]
    norm_num [demo_settings]

/-- The range test of the jog decision spelled out on rationals. -/
theorem in_ok_range_iff (cfg : PlasmaSettings) (v : ℚ) :
    in_ok_range cfg v = true ↔
      ((cfg.arc_voltage_setpoint : ℚ) - (cfg.arc_voltage_hysteresis : ℚ) < v
        ∧ v < (cfg.arc_voltage_setpoint : ℚ) + (cfg.arc_voltage_hysteresis : ℚ)) := by
  unfold in_ok_range
  simp only [Bool.and_eq_true, decide_eq_true_eq, gt_iff_lt]
  push_cast
  rfl

/-- With THC active and no lock, the jog decision leaves both flags clear exactly when
the voltage passes the range test. -/
theorem jog_step_idle_iff (cfg : PlasmaSettings) (p : PlasmaState)
    (hen : p.thc_enabled = true) (hvad : p.vad_lock = false) (hvoid : p.void_lock = false) :
    ((jog_step cfg p).jog_z_up = false ∧ (jog_step cfg p).jog_z_down = false)
      ↔ in_ok_range cfg p.arc_voltage = true := by
  unfold jog_step
  by_cases hin : in_ok_range cfg p.arc_voltage = true
  · simp [hin]
  · by_cases hgt : p.arc_voltage > (cfg.arc_voltage_setpoint : ℚ)
    · simp [hen, hvad, hvoid, hin, hgt]
    · simp only [hen, hvad, hvoid, hin, hgt]
      simp

/-- The jog decision clears both flags whenever a lock is set. -/
theorem jog_step_locked (cfg : PlasmaSettings) (p : PlasmaState)
    (h : p.vad_lock = true ∨ p.void_lock = true) :
    (jog_step cfg p).jog_z_up = false ∧ (jog_step cfg p).jog_z_down = false := by
  unfold jog_step
  have hc : p.thc_enabled = false ∨ p.vad_lock = true ∨ p.void_lock = true
      ∨ in_ok_range cfg p.arc_voltage = true := by
    rcases h with h | h
    · exact Or.inr (Or.inl h)
    · exact Or.inr (Or.inr (Or.inl h))
  rw [if_pos hc]
  exact ⟨rfl, rfl⟩

/-- The jog decision clears both flags whenever THC is not active. -/
theorem jog_step_disabled (cfg : PlasmaSettings) (p : PlasmaState)
    (h : p.thc_enabled = false) :
    (jog_step cfg p).jog_z_up = false ∧ (jog_step cfg p).jog_z_down = false := by
  unfold jog_step
  rw [if_pos (Or.inl h)]
  exact ⟨rfl, rfl⟩

/-- With the master enable on, the state `plasma_update` returns is the jog decision
applied to a state with the same `thc_enabled`, `vad_lock`, `void_lock` and
`arc_voltage`. -/
theorem plasma_update_as_jog_step (cfg : PlasmaSettings) (inp : UpdateInput) (w : World)
    (hm : cfg.thc_enabled = true) :
    ∃ q : PlasmaState, (plasma_update cfg inp w).plasma = jog_step cfg q
      ∧ q.thc_enabled = (plasma_update cfg inp w).plasma.thc_enabled
      ∧ q.vad_lock = (plasma_update cfg inp w).plasma.vad_lock
      ∧ q.void_lock = (plasma_update cfg inp w).plasma.void_lock
      ∧ q.arc_voltage = (plasma_update cfg inp w).plasma.arc_voltage := by
  rw [plasma_update_master_on cfg inp w hm]
  refine ⟨_, rfl, ?_, ?_, ?_, ?_⟩ <;>
  · simp only
    rw [jog_step_frame]

/-- C11, as amended. The dead-band is the open interval: with the master enable on,
and `thc_enabled` true and `vad_lock`, `void_lock` false when `plasma_update` returns,
both jog flags are clear after the call exactly when the stored voltage `v` satisfies
`setpoint - hysteresis < v < setpoint + hysteresis`. -/
theorem dead_band_is_open (cfg : PlasmaSettings) (inp : UpdateInput) (w : World)
    (hm : cfg.thc_enabled = true)
    (hen : (plasma_update cfg inp w).plasma.thc_enabled = true)
    (hvad : (plasma_update cfg inp w).plasma.vad_lock = false)
    (hvoid : (plasma_update cfg inp w).plasma.void_lock = false) :
    ((plasma_update cfg inp w).plasma.jog_z_up = false
        ∧ (plasma_update cfg inp w).plasma.jog_z_down = false)
      ↔ ((cfg.arc_voltage_setpoint : ℚ) - (cfg.arc_voltage_hysteresis : ℚ)
            < (plasma_update cfg inp w).plasma.arc_voltage
          ∧ (plasma_update cfg inp w).plasma.arc_voltage
            < (cfg.arc_voltage_setpoint : ℚ) + (cfg.arc_voltage_hysteresis : ℚ)) := by
  obtain ⟨q, hq, h1, h2, h3, h4⟩ := plasma_update_as_jog_step cfg inp w hm
  rw [← h1] at hen
  rw [← h2] at hvad
  rw [← h3] at hvoid
  rw [← h4, ← in_ok_range_iff, hq]
  exact jog_step_idle_iff cfg q hen hvad hvoid

/-- C11 (amended) at setpoint 120, hysteresis 5: voltage 124 is inside the dead-band
and both flags are clear. -/
theorem dead_band_is_open_witness :
    (plasma_update demo_settings (sample_at 124 1) world_cutting).plasma.jog_z_up = false
      ∧ (plasma_update demo_settings (sample_at 124 1) world_cutting).plasma.jog_z_down
          = false := by
  refine (dead_band_is_open demo_settings (sample_at 124 1) world_cutting rfl
    (demo_cutting_gates 124).1 (demo_cutting_gates 124).2.1
    (demo_cutting_gates 124).2.2.1).mpr ?_
  have s124 : arc_voltage_stored demo_settings 124 = 124 := by
    simpa using demo_stored 124 (by decide)
  rw [(demo_cutting_gates 124).2.2.2, s124]
  norm_num [demo_settings]

/-- C11 as stated fails at the endpoints. With setpoint 120, hysteresis 5, THC active
and no lock, the stored voltage 125 = setpoint + hysteresis sets `jog_z_down`; with
hysteresis 0 the stored voltage 120 = setpoint sets `jog_z_up`. -/
theorem dead_band_endpoints_jog :
    ((plasma_update demo_settings (sample_at 125 1) world_cutting).plasma.arc_voltage = 125
        ∧ (plasma_update demo_settings (sample_at 125 1) world_cutting).plasma.thc_enabled
            = true
        ∧ (plasma_update demo_settings (sample_at 125 1) world_cutting).plasma.vad_lock
            = false
        ∧ (plasma_update demo_settings (sample_at 125 1) world_cutting).plasma.void_lock
            = false
        ∧ (plasma_update demo_settings (sample_at 125 1) world_cutting).plasma.jog_z_down
            = true)
      ∧ ((plasma_update { demo_settings with arc_voltage_hysteresis := 0 } (sample_at 120 1)
            world_cutting).plasma.arc_voltage = 120
        ∧ (plasma_update { demo_settings with arc_voltage_hysteresis := 0 } (sample_at 120 1)
            world_cutting).plasma.jog_z_up = true) := by
  have s125 : arc_voltage_stored demo_settings 125 = 125 := by
    simpa using demo_stored 125 (by decide)
  have s120 : arc_voltage_stored { demo_settings with arc_voltage_hysteresis := 0 } 120
      = 120 := by
    have h : arc_voltage_stored demo_settings 120 = 120 := by
      simpa using demo_stored 120 (by decide)
    exact h
  refine ⟨⟨?_, (demo_cutting_gates 125).1, (demo_cutting_gates 125).2.1,
    (demo_cutting_gates 125).2.2.1, ?_⟩, ?_, ?_⟩
  · rw [(demo_cutting_gates 125).2.2.2, s125]
  · rw [plasma_update_master_on _ _ _ rfl]
    simp only
    rw [vad_step_frame]
    simp [jog_step, in_ok_range, vad_step, vad_engage, vad_release, sample_at, enable_step,
      world_cutting, plasma_zero, s125]
    norm_num [demo_settings]
  · rw [(plasma_update_frame _ _ _).2.2.2.2.2]
    exact s120
  · rw [plasma_update_master_on _ _ _ rfl]
    simp only
    rw [vad_step_frame]
    simp [jog_step, in_ok_range, vad_step, vad_engage, vad_release, sample_at, enable_step,
      world_cutting, plasma_zero, s120]
    norm_num [demo_settings]

/-- C12. Locks suppress jogging: for every prior state, configuration and input, if
`vad_lock` or `void_lock` is true when `plasma_update` returns, then `jog_z_up` and
`jog_z_down` are both false when it returns. -/
theorem locks_suppress_jog (cfg : PlasmaSettings) (inp : UpdateInput) (w : World)
    (h : (plasma_update cfg inp w).plasma.vad_lock = true
        ∨ (plasma_update cfg inp w).plasma.void_lock = true) :
    (plasma_update cfg inp w).plasma.jog_z_up = false
      ∧ (plasma_update cfg inp w).plasma.jog_z_down = false := by
  cases hm : cfg.thc_enabled
  · rw [plasma_update_master_off cfg inp w hm]
    exact ⟨rfl, rfl⟩
  · obtain ⟨q, hq, _, h2, h3, _⟩ := plasma_update_as_jog_step cfg inp w hm
    rw [← h2, ← h3] at h
    rw [hq]
    exact jog_step_locked cfg q h

/-- C12 at a concrete input: the void lock is set in the cutting state and the voltage
126 is above the dead-band; no jog flag is set. -/
theorem locks_suppress_jog_witness :
    (plasma_update demo_settings (sample_at 126 1)
        { world_cutting with plasma := { world_cutting.plasma with void_lock := true } }
      ).plasma.jog_z_up = false
      ∧ (plasma_update demo_settings (sample_at 126 1)
        { world_cutting with plasma := { world_cutting.plasma with void_lock := true } }
      ).plasma.jog_z_down = false :=
  locks_suppress_jog demo_settings (sample_at 126 1)
    { world_cutting with plasma := { world_cutting.plasma with void_lock := true } }
    (Or.inr (by rw [(plasma_update_frame _ _ _).2.2.2.1]))

/-- The lock the two velocity checks leave: the release check, coming second, wins. -/
theorem vad_step_lock (cfg : PlasmaSettings) (inp : UpdateInput) (p : PlasmaState) :
    (vad_step cfg inp p).vad_lock
      = if p.thc_enabled = true ∧ vad_release inp = true then false
        else if p.thc_enabled = true ∧ vad_engage cfg inp = true then true
        else p.vad_lock := by
  unfold vad_step
  dsimp only
  split_ifs <;> rfl

/-- With the master enable on, `vad_lock` after `plasma_update` in terms of the
`thc_enabled` the call returns and the `vad_lock` it found. -/
theorem plasma_update_vad_lock (cfg : PlasmaSettings) (inp : UpdateInput) (w : World)
    (hm : cfg.thc_enabled = true) :
    (plasma_update cfg inp w).plasma.vad_lock
      = if (plasma_update cfg inp w).plasma.thc_enabled = true ∧ vad_release inp = true
          then false
        else if (plasma_update cfg inp w).plasma.thc_enabled = true
            ∧ vad_engage cfg inp = true then true
        else w.plasma.vad_lock := by
  rw [plasma_update_master_on cfg inp w hm]
  simp only
  rw [jog_step_frame]
  simp only
  rw [vad_step_lock]
  have h1 : (vad_step cfg inp (enable_step inp { w with plasma := { w.plasma with
      arc_voltage := arc_voltage_stored cfg inp.analogVal } }).plasma).thc_enabled
      = (enable_step inp { w with plasma := { w.plasma with
      arc_voltage := arc_voltage_stored cfg inp.analogVal } }).plasma.thc_enabled := by
    rw [vad_step_frame]
  have h2 : (enable_step inp { w with plasma := { w.plasma with
      arc_voltage := arc_voltage_stored cfg inp.analogVal } }).plasma.vad_lock
      = w.plasma.vad_lock := by
    rw [enable_step_plasma]
  rw [h1, h2]

theorem vad_release_some (inp : UpdateInput) (b : PlanBlock) (h : inp.current_block = some b) :
    vad_release inp = true ↔ inp.realtime_rate > b.programmed_rate * (99 / 100) := by
  unfold vad_release
  rw [h]
  simp

theorem vad_engage_some (cfg : PlasmaSettings) (inp : UpdateInput) (b : PlanBlock)
    (h : inp.current_block = some b) :
    vad_engage cfg inp = true
      ↔ inp.realtime_rate < b.programmed_rate * (cfg.vad_threshold : ℚ) / 100 := by
  unfold vad_engage
  rw [h]
  simp

theorem vad_none (cfg : PlasmaSettings) (inp : UpdateInput) (h : inp.current_block = none) :
    vad_engage cfg inp = false ∧ vad_release inp = false := by
  unfold vad_engage vad_release
  rw [h]
  exact ⟨rfl, rfl⟩

/-- With the master enable on, THC stays active across an update. -/
theorem plasma_update_stays_enabled (cfg : PlasmaSettings) (inp : UpdateInput) (w : World)
    (hm : cfg.thc_enabled = true) (h : w.plasma.thc_enabled = true) :
    (plasma_update cfg inp w).plasma.thc_enabled = true := by
  rw [plasma_update_thc_enabled cfg inp w hm, h]
  rfl

/-- The two velocity conditions at threshold 80 % on a block programmed at 1000. -/
theorem vad_conditions_at_1000 (cfg : PlasmaSettings) (hthr : cfg.vad_threshold = 80)
    (v : ℚ) (t : Nat) (r : ℚ) :
    (vad_engage cfg (moving_at v t 1000 r) = true ↔ r < 800)
      ∧ (vad_release (moving_at v t 1000 r) = true ↔ r > 990) := by
  constructor
  · rw [vad_engage_some cfg _ ⟨1000⟩ rfl, hthr]
    norm_num [moving_at]
  · rw [vad_release_some _ ⟨1000⟩ rfl]
    norm_num [moving_at]

/-- C13, as amended. VAD lock scenario: with the master enable on, THC active, an
active planner block, `vad_threshold = 80` and `programmed_rate = 1000`, a
`plasma_update` with `realtime_rate = 700` sets `vad_lock`; a subsequent `plasma_update`
with `realtime_rate = 995` clears it (995 is above 990), whereas one with
`realtime_rate = 985` leaves it set. -/
theorem vad_lock_scenario (cfg : PlasmaSettings) (w : World) (v1 v2 : ℚ) (t1 t2 : Nat)
    (hm : cfg.thc_enabled = true) (hthr : cfg.vad_threshold = 80)
    (hen : w.plasma.thc_enabled = true) :
    (plasma_update cfg (moving_at v1 t1 1000 700) w).plasma.vad_lock = true
      ∧ (plasma_update cfg (moving_at v2 t2 1000 995)
          (plasma_update cfg (moving_at v1 t1 1000 700) w)).plasma.vad_lock = false
      ∧ (plasma_update cfg (moving_at v2 t2 1000 985)
          (plasma_update cfg (moving_at v1 t1 1000 700) w)).plasma.vad_lock = true := by
  have hen1 := plasma_update_stays_enabled cfg (moving_at v1 t1 1000 700) w hm hen
  have h700 : (plasma_update cfg (moving_at v1 t1 1000 700) w).plasma.vad_lock = true := by
    obtain ⟨he, hr⟩ := vad_conditions_at_1000 cfg hthr v1 t1 700
    have hr' : ¬ vad_release (moving_at v1 t1 1000 700) = true := by
      rw [hr]; norm_num
    have he' : vad_engage cfg (moving_at v1 t1 1000 700) = true := by
      rw [he]; norm_num
    rw [plasma_update_vad_lock cfg _ w hm, if_neg (fun h => hr' h.2), if_pos ⟨hen1, he'⟩]
  refine ⟨h700, ?_, ?_⟩
  · obtain ⟨_, hr⟩ := vad_conditions_at_1000 cfg hthr v2 t2 995
    have hr' : vad_release (moving_at v2 t2 1000 995) = true := by
      rw [hr]; norm_num
    rw [plasma_update_vad_lock cfg _ _ hm,
      if_pos ⟨plasma_update_stays_enabled cfg _ _ hm hen1, hr'⟩]
  · obtain ⟨he, hr⟩ := vad_conditions_at_1000 cfg hthr v2 t2 985
    have hr' : ¬ vad_release (moving_at v2 t2 1000 985) = true := by
      rw [hr]; norm_num
    have he' : ¬ vad_engage cfg (moving_at v2 t2 1000 985) = true := by
      rw [he]; norm_num
    rw [plasma_update_vad_lock cfg _ _ hm, if_neg (fun h => hr' h.2),
      if_neg (fun h => he' h.2)]
    exact h700

/-- C13 (amended) at a concrete input: the demo configuration in the cutting state. -/
theorem vad_lock_scenario_witness :
    (plasma_update demo_settings (moving_at 122 1 1000 700) world_cutting).plasma.vad_lock
        = true
      ∧ (plasma_update demo_settings (moving_at 122 2 1000 995)
          (plasma_update demo_settings (moving_at 122 1 1000 700)
            world_cutting)).plasma.vad_lock = false
      ∧ (plasma_update demo_settings (moving_at 122 2 1000 985)
          (plasma_update demo_settings (moving_at 122 1 1000 700)
            world_cutting)).plasma.vad_lock = true :=
  vad_lock_scenario demo_settings world_cutting 122 122 1 2 rfl rfl rfl

/-- C13 as stated fails: with `vad_threshold = 80`, `programmed_rate = 1000`, THC
active and a block running, the update at rate 700 sets `vad_lock`, and the following
update at rate 995 returns with `vad_lock` false, not true. -/
theorem vad_lock_released_at_995 :
    demo_settings.thc_enabled = true
      ∧ demo_settings.vad_threshold = 80
      ∧ world_cutting.plasma.thc_enabled = true
      ∧ (plasma_update demo_settings (moving_at 122 1 1000 700)
          world_cutting).plasma.vad_lock = true
      ∧ (plasma_update demo_settings (moving_at 122 2 1000 995)
          (plasma_update demo_settings (moving_at 122 1 1000 700)
            world_cutting)).plasma.vad_lock = false := by
  have hen1 := plasma_update_stays_enabled demo_settings (moving_at 122 1 1000 700)
    world_cutting rfl rfl
  obtain ⟨he, hr⟩ := vad_conditions_at_1000 demo_settings rfl 122 1 700
  obtain ⟨_, hr2⟩ := vad_conditions_at_1000 demo_settings rfl 122 2 995
  refine ⟨rfl, rfl, rfl, ?_, ?_⟩
  · rw [plasma_update_vad_lock demo_settings _ _ rfl,
      if_neg (fun h => absurd (hr.mp h.2) (by norm_num)),
      if_pos ⟨hen1, he.mpr (by norm_num)⟩]
  · rw [plasma_update_vad_lock demo_settings _ _ rfl,
      if_pos ⟨plasma_update_stays_enabled demo_settings _ _ rfl hen1,
        hr2.mpr (by norm_num)⟩]

/-- C19. The engage and release conditions cannot both fire: for `vad_threshold < 99`
and a non-negative `programmed_rate`, `realtime_rate < programmed_rate ×
vad_threshold / 100` and `realtime_rate > programmed_rate × 0.99` are never both true
for the same input, and the two checks of `plasma_update` give the same state in either
order. -/
theorem vad_checks_exclusive (cfg : PlasmaSettings) (inp : UpdateInput)
    (hthr : cfg.vad_threshold < 99)
    (hrate : ∀ b : PlanBlock, inp.current_block = some b → 0 ≤ b.programmed_rate) :
    (∀ b : PlanBlock, inp.current_block = some b →
        ¬ (inp.realtime_rate < b.programmed_rate * (cfg.vad_threshold : ℚ) / 100
            ∧ inp.realtime_rate > b.programmed_rate * (99 / 100)))
      ∧ ¬ (vad_engage cfg inp = true ∧ vad_release inp = true)
      ∧ (∀ p : PlasmaState, vad_step cfg inp p = vad_step_release_first cfg inp p) := by
  have hex : ∀ b : PlanBlock, inp.current_block = some b →
      ¬ (inp.realtime_rate < b.programmed_rate * (cfg.vad_threshold : ℚ) / 100
          ∧ inp.realtime_rate > b.programmed_rate * (99 / 100)) := by
    intro b hb h
    have hp := hrate b hb
    have ht : (cfg.vad_threshold : ℚ) ≤ 99 := by exact_mod_cast hthr.le
    have hmul : b.programmed_rate * (cfg.vad_threshold : ℚ) ≤ b.programmed_rate * 99 :=
      mul_le_mul_of_nonneg_left ht hp
    linarith [h.1, h.2]
  have hboth : ¬ (vad_engage cfg inp = true ∧ vad_release inp = true) := by
    intro h
    cases hb : inp.current_block with
    | none =>
      have := (vad_none cfg inp hb).1
      rw [this] at h
      exact absurd h.1 (by simp)
    | some b =>
      exact hex b hb ⟨(vad_engage_some cfg inp b hb).mp h.1,
        (vad_release_some inp b hb).mp h.2⟩
  refine ⟨hex, hboth, ?_⟩
  intro p
  unfold vad_step vad_step_release_first
  dsimp only
  by_cases he : vad_engage cfg inp = true
  · have hr : ¬ vad_release inp = true := fun hr => hboth ⟨he, hr⟩
    by_cases hen : p.thc_enabled = true <;> simp [he, hr, hen]
  · by_cases hr : vad_release inp = true <;>
    by_cases hen : p.thc_enabled = true <;> simp [he, hr, hen]

/-- C19 at threshold 80 on a block programmed at 1000, rate 700, lock clear: both
orders of the checks set the lock. -/
theorem vad_checks_exclusive_witness :
    ¬ (vad_engage demo_settings (moving_at 122 1 1000 700) = true
        ∧ vad_release (moving_at 122 1 1000 700) = true)
      ∧ vad_step demo_settings (moving_at 122 1 1000 700) world_cutting.plasma
        = vad_step_release_first demo_settings (moving_at 122 1 1000 700)
            world_cutting.plasma := by
  have h := vad_checks_exclusive demo_settings (moving_at 122 1 1000 700) (by decide)
    (by
      intro b hb
      have : b = ⟨1000⟩ := by
        simp only [moving_at, Option.some.injEq] at hb
        exact hb.symm
      rw [this]
      norm_num)
  exact ⟨h.2.1, h.2.2 _⟩

/-- C16. No-verification mode: with `arc_retries = 0`, whatever the arc-ok input does,
`plasma_start` makes one attempt. The calls it adds to the trace are, in order,
`spindle_start`, the torch-on report and the arc-ok report: one energize call, no read
of the arc-ok input, no delay, no retry or failure report, no alarm. It returns with
`torch_on` and `arc_ok` true and the relay energized. -/
theorem no_verification_mode (cfg : PlasmaSettings) (pin : Nat → Bool) (millis_timer : Nat)
    (w : World) (h0 : cfg.arc_retries = 0) :
    (plasma_start cfg pin millis_timer w).trace
        = w.trace ++ [Event.spindle_start, Event.feedback Message.torch_on,
            Event.feedback Message.arc_ok]
      ∧ (plasma_start cfg pin millis_timer w).arc_ok_reads = w.arc_ok_reads
      ∧ (plasma_start cfg pin millis_timer w).spindle = true
      ∧ (plasma_start cfg pin millis_timer w).plasma.torch_on = true
      ∧ (plasma_start cfg pin millis_timer w).plasma.arc_ok = true := by
  have hn : ¬ cfg.arc_retries > 0 := by omega
  have hig : ignite cfg pin w
      = { (report_feedback_message Message.torch_on
            { spindle_start w with plasma := { (spindle_start w).plasma with
                torch_on := true } }) with
          plasma := { w.plasma with torch_on := true, arc_ok := true } } := by
    unfold ignite
    rw [if_neg hn]
    rfl
  have hok : (ignite cfg pin w).plasma.arc_ok = true := by rw [hig]
  unfold plasma_start
  rw [ignition_loop_success cfg pin millis_timer _ w hok, hig]
  simp [arc_confirmed, report_feedback_message, spindle_start, emit]

/-- C16 at a concrete input: `arc_retries = 0` with an arc-ok input that never
asserts, from power-up. -/
theorem no_verification_mode_witness :
    (plasma_start { demo_settings with arc_retries := 0 } pin_never 1000 world_zero).trace
        = [Event.spindle_start, Event.feedback Message.torch_on,
            Event.feedback Message.arc_ok]
      ∧ (plasma_start { demo_settings with arc_retries := 0 } pin_never 1000
          world_zero).arc_ok_reads = 0
      ∧ (plasma_start { demo_settings with arc_retries := 0 } pin_never 1000
          world_zero).spindle = true
      ∧ (plasma_start { demo_settings with arc_retries := 0 } pin_never 1000
          world_zero).plasma.torch_on = true
      ∧ (plasma_start { demo_settings with arc_retries := 0 } pin_never 1000
          world_zero).plasma.arc_ok = true :=
  no_verification_mode { demo_settings with arc_retries := 0 } pin_never 1000 world_zero rfl

/-- The three cases of the timer interrupt on the Z axis, and the counter. -/
theorem timer_tick_cases (dir_invert_mask : Nat) (m : Machine) :
    (m.plasma.jog_z_up = true →
        (TIMER2_OVF_vect dir_invert_mask m).sys_position_z = m.sys_position_z + 1
          ∧ (TIMER2_OVF_vect dir_invert_mask m).z_step_pulses = m.z_step_pulses + 1
          ∧ (TIMER2_OVF_vect dir_invert_mask m).z_direction
              = z_dir_inverted dir_invert_mask)
      ∧ (m.plasma.jog_z_up = false → m.plasma.jog_z_down = true →
        (TIMER2_OVF_vect dir_invert_mask m).sys_position_z = m.sys_position_z - 1
          ∧ (TIMER2_OVF_vect dir_invert_mask m).z_step_pulses = m.z_step_pulses + 1
          ∧ (TIMER2_OVF_vect dir_invert_mask m).z_direction
              = !(z_dir_inverted dir_invert_mask))
      ∧ (m.plasma.jog_z_up = false → m.plasma.jog_z_down = false →
        (TIMER2_OVF_vect dir_invert_mask m).sys_position_z = m.sys_position_z
          ∧ (TIMER2_OVF_vect dir_invert_mask m).z_step_pulses = m.z_step_pulses
          ∧ (TIMER2_OVF_vect dir_invert_mask m).z_direction = m.z_direction
          ∧ (TIMER2_OVF_vect dir_invert_mask m).z_step = m.z_step)
      ∧ (TIMER2_OVF_vect dir_invert_mask m).millis_timer = (m.millis_timer + 1) % 2 ^ 32 := by
  refine ⟨?_, ?_, ?_, ?_⟩
  · intro hu
    unfold TIMER2_OVF_vect
    cases hi : z_dir_inverted dir_invert_mask <;>
      simp [hu, hi, step_z, set_z_dir_low, set_z_dir_high]
  · intro hu hd
    unfold TIMER2_OVF_vect
    cases hi : z_dir_inverted dir_invert_mask <;>
      simp [hu, hd, hi, step_z, set_z_dir_low, set_z_dir_high]
  · intro hu hd
    unfold TIMER2_OVF_vect
    simp [hu, hd]
  · unfold TIMER2_OVF_vect
    cases hu : m.plasma.jog_z_up <;> cases hd : m.plasma.jog_z_down <;>
      cases hi : z_dir_inverted dir_invert_mask <;>
      simp [step_z, set_z_dir_low, set_z_dir_high]

/-- C17. Timer tick step function: for every state and `dir_invert_mask`, one firing
of the interrupt (a) adds 1 to the Z position and sends one step pulse if `jog_z_up`
is set, whether or not `jog_z_down` is set too; (b) subtracts 1 and sends one step
pulse if `jog_z_up` is clear and `jog_z_down` is set; (c) leaves the position and the
step and direction outputs as they were if neither is set. The direction level of a
down jog is the opposite of that of an up jog under the same mask. In every case the
counter advances by 1 modulo 2^32 and `plasma`, the jog flags included, is unchanged. -/
theorem timer_tick_step (dir_invert_mask : Nat) (m : Machine) :
    (m.plasma.jog_z_up = true →
        (TIMER2_OVF_vect dir_invert_mask m).sys_position_z = m.sys_position_z + 1
          ∧ (TIMER2_OVF_vect dir_invert_mask m).z_step_pulses = m.z_step_pulses + 1)
      ∧ (m.plasma.jog_z_up = false → m.plasma.jog_z_down = true →
        (TIMER2_OVF_vect dir_invert_mask m).sys_position_z = m.sys_position_z - 1
          ∧ (TIMER2_OVF_vect dir_invert_mask m).z_step_pulses = m.z_step_pulses + 1)
      ∧ (m.plasma.jog_z_up = false → m.plasma.jog_z_down = false →
        (TIMER2_OVF_vect dir_invert_mask m).sys_position_z = m.sys_position_z
          ∧ (TIMER2_OVF_vect dir_invert_mask m).z_step_pulses = m.z_step_pulses
          ∧ (TIMER2_OVF_vect dir_invert_mask m).z_direction = m.z_direction
          ∧ (TIMER2_OVF_vect dir_invert_mask m).z_step = m.z_step)
      ∧ (∀ m' : Machine, m.plasma.jog_z_up = true →
          m'.plasma.jog_z_up = false → m'.plasma.jog_z_down = true →
          (TIMER2_OVF_vect dir_invert_mask m').z_direction
            = !(TIMER2_OVF_vect dir_invert_mask m).z_direction)
      ∧ (TIMER2_OVF_vect dir_invert_mask m).millis_timer = (m.millis_timer + 1) % 2 ^ 32
      ∧ (TIMER2_OVF_vect dir_invert_mask m).plasma.jog_z_up = m.plasma.jog_z_up
      ∧ (TIMER2_OVF_vect dir_invert_mask m).plasma.jog_z_down = m.plasma.jog_z_down := by
  obtain ⟨ha, hb, hc, hmil⟩ := timer_tick_cases dir_invert_mask m
  refine ⟨fun hu => ⟨(ha hu).1, (ha hu).2.1⟩, fun hu hd => ⟨(hb hu hd).1, (hb hu hd).2.1⟩,
    hc, ?_, hmil, ?_, ?_⟩
  · intro m' hu hu' hd'
    rw [((timer_tick_cases dir_invert_mask m').2.1 hu' hd').2.2, (ha hu).2.2]
  · rw [timer_plasma]
  · rw [timer_plasma]

/-- C17 at concrete inputs, mask 0 and counter at its last value: an up jog with both
flags set moves the axis to +1 with direction low; a down jog moves it to -1 with
direction high; the counter wraps to 0. -/
theorem timer_tick_step_witness :
    (TIMER2_OVF_vect 0 (machine_with
        { plasma_zero with jog_z_up := true, jog_z_down := true })).sys_position_z = 1
      ∧ (TIMER2_OVF_vect 0 (machine_with
        { plasma_zero with jog_z_up := true, jog_z_down := true })).z_step_pulses = 1
      ∧ (TIMER2_OVF_vect 0 (machine_with
        { plasma_zero with jog_z_down := true })).sys_position_z = -1
      ∧ (TIMER2_OVF_vect 0 (machine_with { plasma_zero with jog_z_down := true })).z_direction
        = !(TIMER2_OVF_vect 0 (machine_with
            { plasma_zero with jog_z_up := true, jog_z_down := true })).z_direction
      ∧ (TIMER2_OVF_vect 0
          { machine_with plasma_zero with millis_timer := 2 ^ 32 - 1 }).millis_timer = 0 :=
  ⟨((timer_tick_step 0 (machine_with
      { plasma_zero with jog_z_up := true, jog_z_down := true })).1 rfl).1,
   ((timer_tick_step 0 (machine_with
      { plasma_zero with jog_z_up := true, jog_z_down := true })).1 rfl).2,
   ((timer_tick_step 0 (machine_with
      { plasma_zero with jog_z_down := true })).2.1 rfl rfl).1,
   (timer_tick_step 0 (machine_with
      { plasma_zero with jog_z_up := true, jog_z_down := true })).2.2.2.1
      (machine_with { plasma_zero with jog_z_down := true }) rfl rfl rfl,
   (timer_tick_step 0 { machine_with plasma_zero with millis_timer := 2 ^ 32 - 1 }).2.2.2.2.1⟩

/-- C20. `plasma_stop` does not touch the jog flags: from a state with `torch_on` true
it returns with `jog_z_up`, `jog_z_down`, `arc_voltage` and `thc_delay` as they were, so
a timer interrupt that fires on the state `plasma_stop` left still steps the axis (up
if `jog_z_up` was set, down if only `jog_z_down` was set); the next `plasma_update`, with
any configuration and input, returns with `thc_enabled` and both jog flags false. -/
theorem stop_keeps_jog_flags (cfg cfg' : PlasmaSettings) (inp : UpdateInput)
    (dir_invert_mask : Nat) (w : World) (m : Machine)
    (h : w.plasma.torch_on = true) (hm : m.plasma = (plasma_stop cfg w).plasma) :
    ((plasma_stop cfg w).plasma.jog_z_up = w.plasma.jog_z_up
        ∧ (plasma_stop cfg w).plasma.jog_z_down = w.plasma.jog_z_down
        ∧ (plasma_stop cfg w).plasma.arc_voltage = w.plasma.arc_voltage
        ∧ (plasma_stop cfg w).plasma.thc_delay = w.plasma.thc_delay)
      ∧ (w.plasma.jog_z_up = true →
          (TIMER2_OVF_vect dir_invert_mask m).sys_position_z = m.sys_position_z + 1
            ∧ (TIMER2_OVF_vect dir_invert_mask m).z_step_pulses = m.z_step_pulses + 1)
      ∧ (w.plasma.jog_z_up = false → w.plasma.jog_z_down = true →
          (TIMER2_OVF_vect dir_invert_mask m).sys_position_z = m.sys_position_z - 1
            ∧ (TIMER2_OVF_vect dir_invert_mask m).z_step_pulses = m.z_step_pulses + 1)
      ∧ ((plasma_update cfg' inp (plasma_stop cfg w)).plasma.thc_enabled = false
        ∧ (plasma_update cfg' inp (plasma_stop cfg w)).plasma.jog_z_up = false
        ∧ (plasma_update cfg' inp (plasma_stop cfg w)).plasma.jog_z_down = false) := by
  have hstop := plasma_stop_on cfg w h
  have hup : m.plasma.jog_z_up = w.plasma.jog_z_up := by rw [hm, hstop]
  have hdown : m.plasma.jog_z_down = w.plasma.jog_z_down := by rw [hm, hstop]
  obtain ⟨ha, hb, _, _⟩ := timer_tick_cases dir_invert_mask m
  refine ⟨?_, ?_, ?_, ?_⟩
  · rw [hstop]
    exact ⟨rfl, rfl, rfl, rfl⟩
  · intro hu
    rw [← hup] at hu
    exact ⟨(ha hu).1, (ha hu).2.1⟩
  · intro hu hd
    rw [← hup] at hu
    rw [← hdown] at hd
    exact ⟨(hb hu hd).1, (hb hu hd).2.1⟩
  · have hen : (plasma_stop cfg w).plasma.thc_enabled = false := by rw [hstop]
    have hok : (plasma_stop cfg w).plasma.arc_ok = false := by rw [hstop]
    cases hc : cfg'.thc_enabled
    · rw [plasma_update_master_off cfg' inp _ hc]
      exact ⟨rfl, rfl, rfl⟩
    · have hpost : (plasma_update cfg' inp (plasma_stop cfg w)).plasma.thc_enabled
          = false := by
        rw [plasma_update_thc_enabled cfg' inp _ hc, hen, hok]
        rfl
      obtain ⟨q, hq, h1, _, _, _⟩ := plasma_update_as_jog_step cfg' inp (plasma_stop cfg w) hc
      refine ⟨hpost, ?_⟩
      rw [hq]
      exact jog_step_disabled cfg' q (by rw [h1, hpost])

/-- C20 at a concrete input: the cutting state with a pending down jog. The stop keeps
the flag, a tick afterwards moves the axis to -1, and the next update clears the
flags. -/
theorem stop_keeps_jog_flags_witness :
    (plasma_stop demo_settings
        { world_cutting with plasma := { world_cutting.plasma with jog_z_down := true } }
      ).plasma.jog_z_down = true
      ∧ (TIMER2_OVF_vect 0 (machine_with (plasma_stop demo_settings
          { world_cutting with plasma := { world_cutting.plasma with jog_z_down := true } }
        ).plasma)).sys_position_z = -1
      ∧ (plasma_update demo_settings (sample_at 126 1) (plasma_stop demo_settings
          { world_cutting with plasma := { world_cutting.plasma with jog_z_down := true } })
        ).plasma.jog_z_down = false := by
  have h := stop_keeps_jog_flags demo_settings demo_settings (sample_at 126 1) 0
    { world_cutting with plasma := { world_cutting.plasma with jog_z_down := true } }
    (machine_with (plasma_stop demo_settings
      { world_cutting with plasma := { world_cutting.plasma with jog_z_down := true } }
      ).plasma) rfl rfl
  exact ⟨h.1.2.1, (h.2.2.1 rfl rfl).1, h.2.2.2.2.2⟩

theorem round_half_even_le (y : ℚ) : (round_half_even y : ℚ) ≤ y + 1 / 2 := by
  have hfl : ((⌊y⌋ : ℤ) : ℚ) ≤ y := Int.floor_le y
  unfold round_half_even
  by_cases ha : y - (⌊y⌋ : ℚ) < 1 / 2
  · rw [if_pos ha]
    linarith
  · rw [if_neg ha]
    have ha' : 1 / 2 ≤ y - (⌊y⌋ : ℚ) := not_lt.mp ha
    by_cases hb : y - (⌊y⌋ : ℚ) > 1 / 2
    · rw [if_pos hb]
      push_cast
      linarith
    · rw [if_neg hb]
      split
      · linarith
      · push_cast
        linarith

/-- Rounding to `float` moves a value up by at most half the spacing around it. -/
theorem f32_round_le (x : ℚ) : f32_round x ≤ x + (f32_spacing x : ℚ) / 2 ^ 150 := by
  have hs : (0 : ℚ) < (f32_spacing x : ℚ) := by
    unfold f32_spacing
    positivity
  have h := round_half_even_le (x * 2 ^ 149 / (f32_spacing x : ℚ))
  have h2 : (round_half_even (x * 2 ^ 149 / (f32_spacing x : ℚ)) : ℚ) * (f32_spacing x : ℚ)
      ≤ x * 2 ^ 149 + (f32_spacing x : ℚ) / 2 := by
    have := mul_le_mul_of_nonneg_right h hs.le
    rw [add_mul, div_mul_cancel₀ _ hs.ne'] at this
    linarith
  unfold f32_round f32_units
  push_cast
  rw [div_le_iff₀ (by positivity)]
  have h3 : (x + (f32_spacing x : ℚ) / 2 ^ 150) * 2 ^ 149
      = x * 2 ^ 149 + (f32_spacing x : ℚ) / 2 := by
    field_simp
    ring
  rw [h3]
  exact h2

/-- Below `2²¹` in size the spacing of `float` values is at most `2⁻³`, that is `2¹⁴⁶`
units. -/
theorem f32_spacing_le (x : ℚ) (hx : |x| < 2 ^ 21) : f32_spacing x ≤ 2 ^ 146 := by
  have he : f32_exponent x ≤ 20 := by
    unfold f32_exponent
    apply max_le _ (by norm_num)
    rcases eq_or_lt_of_le (abs_nonneg x) with h0 | hpos
    · rw [← h0, Int.log_zero_right]
      norm_num
    · have hlt : |x| < ((2 : ℕ) : ℚ) ^ ((21 : ℤ)) := by
        have : ((2 : ℕ) : ℚ) ^ ((21 : ℤ)) = 2 ^ 21 := by norm_num
        rw [this]
        exact hx
      have := (Int.lt_zpow_iff_log_lt (by norm_num) hpos).mp hlt
      omega
  unfold f32_spacing
  apply Nat.pow_le_pow_right (by norm_num)
  omega

/-- The countdown moves: for every countdown in `[0, 2²¹]` the statement
`arc_fail_timeout -= 0.1f` makes it smaller, so the third condition of `arc_ok_poll`
holds there and the loop is the source's. -/
theorem countdown_moves (t : ℚ) (h0 : 0 ≤ t) (h1 : t ≤ 2 ^ 21) : countdown_step t < t := by
  unfold countdown_step
  rw [f32_tenth]
  have hx : |t - 13421773 / 134217728| < 2 ^ 21 := by
    rw [abs_lt]
    constructor <;> linarith
  have hs : ((f32_spacing (t - 13421773 / 134217728) : ℕ) : ℚ) ≤ 2 ^ 146 := by
    exact_mod_cast f32_spacing_le _ hx
  have hr := f32_round_le (t - 13421773 / 134217728)
  have hd : ((f32_spacing (t - 13421773 / 134217728) : ℕ) : ℚ) / 2 ^ 150 ≤ 1 / 16 := by
    rw [div_le_iff₀ (by positivity)]
    calc ((f32_spacing (t - 13421773 / 134217728) : ℕ) : ℚ) ≤ 2 ^ 146 := hs
      _ = 1 / 16 * 2 ^ 150 := by norm_num
  linarith

/-- A polling loop whose arc-ok input stays deasserted at every poll it makes ends with
`arc_ok` false after `countdown_passes` reads, whatever the input does later. -/
theorem arc_ok_poll_misses (pin : Nat → Bool) (t : ℚ) (w : World) :
    (∀ k, k < countdown_passes t → pin (w.arc_ok_reads + k) = true) →
      (arc_ok_poll pin t w).plasma.arc_ok = false
        ∧ (arc_ok_poll pin t w).arc_ok_reads = w.arc_ok_reads + countdown_passes t := by
  induction t, w using arc_ok_poll.induct pin with
  | case1 t w h ih =>
    intro hpin
    have hp : countdown_passes t = countdown_passes (countdown_step t) + 1 := by
      rw [countdown_passes_unfold t, if_pos ⟨h.2.1, h.2.2⟩]
    rw [arc_ok_poll, if_pos h]
    have := ih (fun k hk => by
      rw [poll_once_reads, Nat.add_assoc, Nat.add_comm 1 k]
      exact hpin (k + 1) (by omega))
    rw [poll_once_reads] at this
    exact ⟨this.1, by omega⟩
  | case2 t w h =>
    intro hpin
    have hfalse : (poll_once pin w).plasma.arc_ok = false := by
      rw [poll_once_plasma]
      have := hpin 0 (countdown_passes_pos t)
      simp only [Nat.add_zero] at this
      simp [this]
    have hstop : ¬ (countdown_step t ≥ 0 ∧ countdown_step t < t) :=
      fun hc => h ⟨hfalse, hc.1, hc.2⟩
    rw [arc_ok_poll, if_neg h, poll_once_reads, countdown_passes_unfold t, if_neg hstop]
    exact ⟨hfalse, rfl⟩

/-- An attempt whose arc-ok input stays deasserted at every poll it makes fails. -/
theorem ignite_misses (cfg : PlasmaSettings) (pin : Nat → Bool) (w : World)
    (hcfg : cfg.arc_retries > 0)
    (h : ∀ k, k < countdown_passes cfg.arc_fail_timeout → pin (w.arc_ok_reads + k) = true) :
    (ignite cfg pin w).plasma.arc_ok = false := by
  unfold ignite
  rw [if_pos hcfg]
  refine (arc_ok_poll_misses pin _ _ ?_).1
  intro k hk
  exact h k hk

/-- With a single attempt (`arc_retries = 1`), an arc-ok input that stays deasserted at
every poll of that attempt makes `plasma_start` return with `arc_ok` false. -/
theorem single_attempt_misses (cfg : PlasmaSettings) (pin : Nat → Bool) (millis_timer : Nat)
    (w : World) (h1 : cfg.arc_retries = 1)
    (h : ∀ k, k < countdown_passes cfg.arc_fail_timeout → pin (w.arc_ok_reads + k) = true) :
    (plasma_start cfg pin millis_timer w).plasma.arc_ok = false := by
  have hig := ignite_misses cfg pin w (by omega) h
  have hlast : ¬ (cfg.arc_retries + 255) % 256 > 0 := by
    rw [h1]
    decide
  unfold plasma_start
  rw [ignition_loop, if_neg (by rw [hig]; simp), if_neg hlast]
  simp only [pause_on_error, report_feedback_message, emit, torch_off_plasma]
  exact hig

/-- With `arc_fail_timeout = 1.0 s` and a single attempt, an arc-ok input that asserts
only at read 10 comes too late: the attempt makes its ten polls at reads 0 to 9, and
`plasma_start` returns with `arc_ok` false. -/
theorem late_arc_is_missed :
    (plasma_start { demo_settings with arc_retries := 1 } (pin_asserts_at 10) 1000
      world_zero).plasma.arc_ok = false := by
  apply single_attempt_misses _ _ _ _ rfl
  intro k hk
  rw [show ({ demo_settings with arc_retries := 1 } : PlasmaSettings).arc_fail_timeout = 1
    from rfl, countdown_passes_one] at hk
  have h0 : world_zero.arc_ok_reads = 0 := rfl
  rw [h0]
  unfold pin_asserts_at
  simp
  omega

end Thc
